import Mathlib

/-!
Verification development for the NWN combat tracker core
(`nwn_combat_tracker_gui.py`).  The parsing-and-aggregation core
(`NWNCombatTracker`, `EnemySaves`, `EnemyAC`, `AttackBonus`) is shallowly
embedded below.  Regular-expression matching is performed by Python's `re`
library, an external collaborator; a matched line is therefore embedded as
the typed capture groups the patterns produce (the `Line` bundle further
down), while the aggregation logic that consumes those captures is
translated statement by statement.  The one pattern simple enough to embed
at the string level, the `[CHAT WINDOW TEXT]` metadata-prefix substitution
used by `_strip_prefix`, is implemented concretely on strings.  Wall-clock
values (`datetime.now()`) are passed explicitly as integer timestamps.
Python attribute access on a possibly-`None` object is modelled in the
`Option` monad: an unguarded access would produce `none`.
-/

/-! ## String helpers (Python string primitives used by the tracker) -/

/-- ASCII whitespace, the characters Python's `str.strip()` and the regex
class `\s` recognise on the log lines in question. -/
def isSpacePy (c : Char) : Bool :=
  c = ' ' || c = '\t' || c = '\n' || c = '\r' || c = '\x0b' || c = '\x0c'

/-- Python `str.strip()` on the character list: drop whitespace from both
ends. -/
def trimL (l : List Char) : List Char :=
  ((l.dropWhile isSpacePy).reverse.dropWhile isSpacePy).reverse

/-- Python `str.strip()`. -/
def pyStrip (s : String) : String := ⟨trimL s.data⟩

/-- Python `str.lower()` (ASCII). -/
def pyLower (s : String) : String := ⟨s.data.map Char.toLower⟩

/-- Python `str.rstrip('.!,')`: drop trailing sentence punctuation. -/
def rstripPunct (s : String) : String :=
  ⟨(s.data.reverse.dropWhile (fun c => c = '.' || c = '!' || c = ',')).reverse⟩

/-- `sub` is a prefix of `l` (character lists). -/
def hasPrefixL : List Char → List Char → Bool
  | [], _ => true
  | _ :: _, [] => false
  | a :: as, b :: bs => a = b && hasPrefixL as bs

/-- `sub` occurs somewhere inside `l` (character lists). -/
def containsL (sub : List Char) : List Char → Bool
  | [] => hasPrefixL sub []
  | c :: rest => hasPrefixL sub (c :: rest) || containsL sub (c :: rest).tail

/-- Python `sub in s` substring test. -/
def strContains (sub s : String) : Bool := containsL sub.data s.data

/-- One step of Python `str.title()`: the first letter of each alphabetic
run is uppercased, the rest lowercased.  `prev` records whether the
previous character was alphabetic. -/
def titleAux : Bool → List Char → List Char
  | _, [] => []
  | prev, c :: rest =>
    let a := c.isAlpha
    (if a then (if prev then c.toLower else c.toUpper) else c) :: titleAux a rest

/-- Python `str.title()`, used to normalise damage-type names. -/
def pyTitle (s : String) : String := ⟨titleAux false s.data⟩

/-! ## The line preprocessor (`_strip_prefix` / `pat_prefix`)

The pattern is `^\[CHAT WINDOW TEXT\]\s*\[[^\]]+\]\s*` with `IGNORECASE`;
`re.sub` with this `^`-anchored pattern removes at most one occurrence, at
the very start of the raw line, after which `.strip()` trims whitespace. -/

/-- Case-insensitive match of a literal character list. -/
def matchLitCI : List Char → List Char → Option (List Char)
  | [], rest => some rest
  | _ :: _, [] => none
  | p :: ps, c :: cs => if c.toLower = p then matchLitCI ps cs else none

/-- Match `^\[CHAT WINDOW TEXT\]\s*\[[^\]]+\]\s*` at the start of the
character list, returning the remainder after the matched span. -/
def matchChatTag (l : List Char) : Option (List Char) :=
  match matchLitCI "[chat window text]".data l with
  | none => none
  | some rest =>
    let rest := rest.dropWhile isSpacePy
    match rest with
    | '[' :: rest =>
      let inner := rest.takeWhile (fun c => c ≠ ']')
      if inner.isEmpty then none
      else
        match rest.dropWhile (fun c => c ≠ ']') with
        | ']' :: rest => some (rest.dropWhile isSpacePy)
        | _ => none
    | _ => none

/-- `self.pat_prefix.sub('', line)`: remove the metadata tag when it is
present at position 0. -/
def chatTagSub (s : String) : String :=
  match matchChatTag s.data with
  | some rest => ⟨rest⟩
  | none => s

/-- `_strip_prefix`: remove the metadata tag, then `strip()`. -/
def stripChatTag (s : String) : String := pyStrip (chatTagSub s)

/-! ## `EnemySaves` -/

structure EnemySaves where
  name : String
  fortitude : Option Int := none
  reflex : Option Int := none
  will : Option Int := none
deriving Repr, DecidableEq

/-- `EnemySaves.update_save`: record a running maximum for the named save. -/
def EnemySaves.update_save (s : EnemySaves) (save_type : String) (bonus : Int) :
    EnemySaves :=
  if save_type = "fort" then
    if (match s.fortitude with | none => true | some f => bonus > f) then
      { s with fortitude := some bonus } else s
  else if save_type = "ref" then
    if (match s.reflex with | none => true | some f => bonus > f) then
      { s with reflex := some bonus } else s
  else if save_type = "will" then
    if (match s.will with | none => true | some f => bonus > f) then
      { s with will := some bonus } else s
  else s

/-! ## `EnemyAC` -/

structure EnemyAC where
  name : String
  min_hit : Option Int := none
  max_miss : Option Int := none
deriving Repr, DecidableEq

/-- `EnemyAC.record_hit`: lower the minimum total that connected. -/
def EnemyAC.record_hit (ac : EnemyAC) (total : Int) : EnemyAC :=
  if (match ac.min_hit with | none => true | some v => total < v) then
    { ac with min_hit := some total } else ac

/-- `EnemyAC.record_miss`: raise the maximum total that missed, unless the
natural roll was a 1. -/
def EnemyAC.record_miss (ac : EnemyAC) (total : Int) (was_nat1 : Bool) : EnemyAC :=
  if !was_nat1 then
    if (match ac.max_miss with | none => true | some v => total > v) then
      { ac with max_miss := some total } else ac
  else ac

/-- `EnemyAC.get_ac_estimate`: render the AC estimate string. -/
def EnemyAC.get_ac_estimate (ac : EnemyAC) : String :=
  match ac.min_hit, ac.max_miss with
  | some mh, some mm =>
    if mm + 1 = mh then toString mh
    else if mm < mh then toString (mm + 1) ++ "-" ++ toString mh
    else "~" ++ toString mh
  | some mh, none => "≤" ++ toString mh
  | none, some mm => ">" ++ toString mm
  | none, none => "?"

/-- Modelled from the spec: the six-way case analysis §3 prescribes for the
AC estimate, stated directly on the two bounds (exact value when
`max_miss + 1 = min_hit`, a range when there is a gap, an approximate
`~min_hit` on contradictory data, one-sided forms when only one bound is
known, and an unknown marker otherwise).  Compared against
`EnemyAC.get_ac_estimate` in claim C4. -/
def specAcEstimate (min_hit max_miss : Option Int) : String :=
  match min_hit, max_miss with
  | some mh, some mm =>
    if mm + 1 = mh then toString mh
    else if mm < mh then toString (mm + 1) ++ "-" ++ toString mh
    else "~" ++ toString mh
  | some mh, none => "≤" ++ toString mh
  | none, some mm => ">" ++ toString mm
  | none, none => "?"

/-! ## `AttackBonus` (rolling window) -/

structure AttackBonus where
  current : Int := 0
  max_observed : Int := 0
  last_updated : Int := 0
  recent_attacks : List (Int × Int) := []
  window_seconds : Int := 30
deriving Repr, DecidableEq

/-- The dataclass defaults (`current=0`, empty observation list, 30 s
window). -/
def AttackBonus.init : AttackBonus := {}

/-- Python `max(ab for _, ab in recent_attacks)` as an `Option` (absent on
an empty list). -/
def maxOfBonuses (l : List (Int × Int)) : Option Int :=
  match l with
  | [] => none
  | p :: rest => some (rest.foldl (fun acc q => max acc q.2) p.2)

/-- `AttackBonus._prune_old`: drop observations at or before
`now - window_seconds`. -/
def AttackBonus.prune_old (ab : AttackBonus) (now : Int) : AttackBonus :=
  { ab with recent_attacks :=
      ab.recent_attacks.filter (fun p => p.1 > now - ab.window_seconds) }

/-- `AttackBonus.update`: record a new observation, prune, recompute the
windowed maximum (falling back to the new bonus on an empty list). -/
def AttackBonus.update (ab : AttackBonus) (bonus : Int) (now : Int) : AttackBonus :=
  let ab := { ab with current := bonus,
                      recent_attacks := ab.recent_attacks ++ [(now, bonus)] }
  let ab := ab.prune_old now
  { ab with
      max_observed := (match maxOfBonuses ab.recent_attacks with
                       | some m => m
                       | none => bonus),
      last_updated := now }

/-- `AttackBonus.refresh`: prune, and recompute the maximum only when some
observation survives. -/
def AttackBonus.refresh (ab : AttackBonus) (now : Int) : AttackBonus :=
  let ab := ab.prune_old now
  match maxOfBonuses ab.recent_attacks with
  | some m => { ab with max_observed := m }
  | none => ab

/-- The maximum bonus among observations strictly newer than `cutoff`
(the quantity the spec's rolling-window invariant speaks about). -/
def windowMax (l : List (Int × Int)) (cutoff : Int) : Option Int :=
  maxOfBonuses (l.filter (fun p => p.1 > cutoff))

/-! ## The tracker state (`NWNCombatTracker.__init__` / `reset`) -/

structure Tracker where
  -- configuration (never touched by `reset`)
  player_name : String
  target_filter : String
  exact_match : Bool
  reset_interval : Int
  auto_track : Bool
  -- session state
  target_saves : Option EnemySaves := none
  target_ac : Option EnemyAC := none
  target_name : String := ""
  target_ab : Option Int := none
  attack_bonus : AttackBonus := AttackBonus.init
  hits : Nat := 0
  misses : Nat := 0
  crits : Nat := 0
  conceals : Nat := 0
  target_conceal_pct : Option Int := none
  damage_dealt : Int := 0
  damage_dealt_crits : List Int := []
  damage_dealt_normal : List Int := []
  shield_damage_by_type : List (String × Int) := []
  shield_damage_total : Int := 0
  weapon_buff_damage_by_type : List (String × Int) := []
  weapon_buff_damage_total : Int := 0
  last_attack_was_player : Bool := false
  damage_taken : List Int := []
  damage_taken_by_type : List (String × List Int) := []
  player_pots : Nat := 0
  target_pots : Nat := 0
  last_player_hit_was_crit : Bool := false
  last_target_hit_was_crit : Bool := false
  encounter_start : Option Int := none
  encounter_last : Option Int := none
  target_dead : Bool := false
  kill_time : Option Int := none
deriving Repr, DecidableEq

/-- `NWNCombatTracker.__init__` (the target filter is lowercased on entry). -/
def Tracker.init (player_name target_filter : String)
    (exact_match auto_track : Bool) : Tracker :=
  { player_name := player_name
    target_filter := pyLower target_filter
    exact_match := exact_match
    reset_interval := 18
    auto_track := auto_track }

/-- `NWNCombatTracker.reset`: clear session state, keep configuration (note
the source does not reset `attack_bonus`). -/
def Tracker.reset (st : Tracker) : Tracker :=
  { st with
      target_saves := none, target_ac := none, target_name := "",
      target_ab := none,
      hits := 0, misses := 0, crits := 0, conceals := 0,
      target_conceal_pct := none,
      damage_dealt := 0, damage_dealt_crits := [], damage_dealt_normal := [],
      shield_damage_by_type := [], shield_damage_total := 0,
      weapon_buff_damage_by_type := [], weapon_buff_damage_total := 0,
      last_attack_was_player := false,
      damage_taken := [], damage_taken_by_type := [],
      player_pots := 0, target_pots := 0,
      last_player_hit_was_crit := false, last_target_hit_was_crit := false,
      encounter_start := none, encounter_last := none,
      target_dead := false, kill_time := none }

/-- `_is_player`: the configured player name is non-empty and a
case-insensitive substring of the actor name. -/
def Tracker.is_player (st : Tracker) (name : String) : Bool :=
  st.player_name != "" && strContains (pyLower st.player_name) (pyLower name)

/-- `_matches_target`: normalise the name, then lock-mode or filter-mode
matching. -/
def Tracker.matches_target (st : Tracker) (name : String) : Bool :=
  let name := pyLower (rstripPunct (pyStrip name))
  if st.auto_track then
    if st.is_player name then false
    else if st.target_name != "" then pyLower st.target_name == name
    else true
  else
    if st.target_filter == "" then false
    else if st.exact_match then st.target_filter == name
    else strContains st.target_filter name

/-- `_set_target`: the first call in a session binds the opponent identity
and allocates its saves/AC trackers; later calls are no-ops. -/
def Tracker.set_target (st : Tracker) (name : String) : Tracker :=
  if st.target_name == "" then
    let n := rstripPunct (pyStrip name)
    { st with target_name := n,
              target_saves := some { name := n },
              target_ac := some { name := n } }
  else st

/-- `_update_encounter_time`: lazily set the start, always move the last
timestamp. -/
def Tracker.update_encounter_time (st : Tracker) (now : Int) : Tracker :=
  let st := match st.encounter_start with
            | none => { st with encounter_start := some now }
            | some _ => st
  { st with encounter_last := some now }

/-! ## Matched-line representation

A raw line is decoded by Python's regex engine into at most one
attack-family match (precedence: `pat_attack_conceal`, then
`pat_attack_conceal_pending`, then `pat_attack`, and `pat_conceal_miss`
only when all three failed) plus independent optional matches of
`pat_save`, `pat_damage`, `pat_potion`, `pat_undead_heal` and `pat_kill`
against the same text.  Each constructor / structure below carries exactly
the capture groups its pattern produces (required groups as plain values,
optional groups as `Option`). -/

inductive AttackForm where
  /-- `pat_attack_conceal`: outcome and concealment on one line. -/
  | conceal (attacker target : String) (concealPct roll bonus total : Int)
      (outcome : String)
  /-- `pat_attack_conceal_pending`: roll breakdown but no outcome token. -/
  | pending (attacker target : String) (concealPct roll bonus total : Int)
  /-- `pat_attack`: required outcome, optional `(roll + bonus = total)`. -/
  | plain (attacker target : String) (outcome : String)
      (rbt : Option (Int × Int × Int))
  /-- `pat_conceal_miss` (tried only when no attack pattern matched). -/
  | concealMiss (attacker target : String) (concealPct : Int)
  /-- no attack-family pattern matched. -/
  | noMatch
deriving Repr, DecidableEq

/-- `pat_save` capture groups (`roll`, `dc` and the outcome are captured
but only `bonus` is consumed by the aggregator). -/
structure SaveMatch where
  target : String
  save_type : String
  outcome : String
  roll : Int
  bonus : Int
  dc : Int
deriving Repr, DecidableEq

/-- `pat_damage` capture groups; `breakdown` holds the
`pat_damage_type.finditer` pairs `(amount, type-name)` extracted from the
parenthetical group when it is present (the group is non-empty text, but
may yield an empty pair list). -/
structure DamageMatch where
  attacker : String
  target : String
  amount : Int
  breakdown : Option (List (Int × String))
deriving Repr, DecidableEq

/-- All pattern-match results for one preprocessed line. -/
structure Line where
  attack : AttackForm := .noMatch
  save : Option SaveMatch := none
  damage : Option DamageMatch := none
  /-- `pat_potion` user group. -/
  potion : Option String := none
  /-- `pat_undead_heal` caster group. -/
  undead : Option String := none
  /-- `pat_kill` killer/target groups. -/
  kill : Option (String × String) := none
deriving Repr, DecidableEq

/-- The uniform view the attack-family block computes from whichever
pattern matched. -/
structure AttackData where
  attacker : String
  target : String
  outcome : String
  conceal : Option Int
  roll : Option Int
  bonus : Option Int
  total : Option Int
  pending : Bool
deriving Repr, DecidableEq

/-! ## `parse_line`, branch by branch -/

/-- Python dict update `d.setdefault(k, 0); d[k] += v` on an
insertion-ordered association list. -/
def dictAdd : List (String × Int) → String → Int → List (String × Int)
  | [], k, v => [(k, v)]
  | (k', x) :: rest, k, v =>
    if k' = k then (k', x + v) :: rest else (k', x) :: dictAdd rest k v

/-- Python dict update `d.setdefault(k, []); d[k].append(v)` on an
insertion-ordered association list. -/
def dictAppend : List (String × List Int) → String → Int → List (String × List Int)
  | [], k, v => [(k, [v])]
  | (k', x) :: rest, k, v =>
    if k' = k then (k', x ++ [v]) :: rest else (k', x) :: dictAppend rest k v

/-- The shared body of the attack-family branch (source lines 300-354).
`none` marks a Python `AttributeError` (attribute access on `None`); every
such access in the source is guarded. -/
def Tracker.attack_body (st : Tracker) (d : AttackData) (now : Int) :
    Option Tracker :=
  let attacker := pyStrip d.attacker
  let target := pyStrip d.target
  let outcome := pyLower d.outcome
  let is_hit := strContains "hit" outcome && !strContains "miss" outcome
  let is_crit := strContains "critical" outcome
  let is_miss := outcome == "miss" || outcome == "parried" || outcome == "resisted"
  -- `was_nat1 = roll == 1 if roll else False` (0 and None are falsy)
  let was_nat1 := d.roll.elim false (fun r => if r = 0 then false else r == 1)
  if st.is_player attacker && st.matches_target target then
    let st := st.set_target target
    let st := st.update_encounter_time now
    let st := match d.conceal with
              | some c => { st with target_conceal_pct := some c }
              | none => st
    let st := match d.bonus with
              | some b => { st with attack_bonus := st.attack_bonus.update b now }
              | none => st
    if !d.pending then
      if is_hit then
        let st := { st with hits := st.hits + 1, last_attack_was_player := true }
        let st := if is_crit then
                    { st with crits := st.crits + 1, last_player_hit_was_crit := true }
                  else { st with last_player_hit_was_crit := false }
        if d.total.isSome && st.target_ac.isSome then
          match d.total, st.target_ac with
          | some t, some ac => some { st with target_ac := some (ac.record_hit t) }
          | _, _ => none
        else some st
      else if is_miss then
        let st := { st with misses := st.misses + 1 }
        if d.total.isSome && st.target_ac.isSome then
          match d.total, st.target_ac with
          | some t, some ac =>
            some { st with target_ac := some (ac.record_miss t was_nat1) }
          | _, _ => none
        else some st
      else some st
    else some st
  else if st.matches_target attacker && st.is_player target then
    let st := st.set_target attacker
    let st := st.update_encounter_time now
    let st := if is_hit then
                let st := { st with last_attack_was_player := false }
                match d.bonus with
                | some b =>
                  if (match st.target_ab with | none => true | some ab => b > ab) then
                    { st with target_ab := some b }
                  else st
                | none => st
              else st
    some (if is_crit then { st with last_target_hit_was_crit := true }
          else if is_hit then { st with last_target_hit_was_crit := false }
          else st)
  else some st

/-- The attack-family block of `parse_line`, including the
`pat_conceal_miss` fallback (source lines 286-367). -/
def Tracker.attack_step (st : Tracker) (f : AttackForm) (now : Int) :
    Option Tracker :=
  match f with
  | .noMatch => some st
  | .conceal a t c r b tt o =>
    st.attack_body ⟨a, t, o, some c, some r, some b, some tt, false⟩ now
  | .pending a t c r b tt =>
    st.attack_body ⟨a, t, "", some c, some r, some b, some tt, true⟩ now
  | .plain a t o rbt =>
    st.attack_body ⟨a, t, o, none, rbt.map (·.1), rbt.map (·.2.1),
                    rbt.map (·.2.2), false⟩ now
  | .concealMiss a t c =>
    let attacker := pyStrip a
    let target := pyStrip t
    some (if st.is_player attacker && st.matches_target target then
            let st := st.set_target target
            let st := st.update_encounter_time now
            { st with target_conceal_pct := some c, conceals := st.conceals + 1 }
          else st)

/-- The saving-throw block (source lines 369-386). -/
def Tracker.save_step (st : Tracker) (m : Option SaveMatch) (now : Int) :
    Option Tracker :=
  match m with
  | none => some st
  | some sm =>
    let target := pyStrip sm.target
    let save_type := pyLower sm.save_type
    let save_key := if save_type == "fort" || save_type == "fortitude" then "fort"
                    else if save_type == "reflex" then "ref"
                    else "will"
    if st.matches_target target then
      let st := st.set_target target
      let st := st.update_encounter_time now
      if st.target_saves.isSome then
        match st.target_saves with
        | some s => some { st with target_saves := some (s.update_save save_key sm.bonus) }
        | none => none
      else some st
    else some st

/-- Source lines 402-407: the nonzero breakdown components, title-cased. -/
def nonzeroTypes (items : List (Int × String)) : List (String × Int) :=
  items.filterMap (fun p => if p.1 > 0 then some (pyTitle p.2, p.1) else none)

/-- Source lines 399-411: the single nonzero damage-type component of the
breakdown, when there is exactly one (`is_single_type` /
`single_type_info`). -/
def singleOf (bd : Option (List (Int × String))) : Option (String × Int) :=
  match bd with
  | none => none
  | some items =>
    if (nonzeroTypes items).length = 1 then (nonzeroTypes items).head? else none

/-- The damage block (source lines 388-444). -/
def Tracker.damage_step (st : Tracker) (m : Option DamageMatch) (now : Int) :
    Tracker :=
  match m with
  | none => st
  | some dm =>
    let attacker := pyStrip dm.attacker
    let target := pyStrip dm.target
    let amount := dm.amount
    if st.is_player attacker && st.matches_target target then
      let st := st.set_target target
      let st := st.update_encounter_time now
      match singleOf dm.breakdown with
      | some (dtype, _damount) =>
        if st.last_attack_was_player then
          { st with
              weapon_buff_damage_total := st.weapon_buff_damage_total + amount,
              weapon_buff_damage_by_type :=
                dictAdd st.weapon_buff_damage_by_type dtype amount }
        else
          { st with
              shield_damage_total := st.shield_damage_total + amount,
              shield_damage_by_type :=
                dictAdd st.shield_damage_by_type dtype amount }
      | none =>
        let st := { st with damage_dealt := st.damage_dealt + amount }
        if st.last_player_hit_was_crit then
          { st with damage_dealt_crits := st.damage_dealt_crits ++ [amount] }
        else
          { st with damage_dealt_normal := st.damage_dealt_normal ++ [amount] }
    else if st.matches_target attacker && st.is_player target then
      let st := st.set_target attacker
      let st := st.update_encounter_time now
      let st := { st with damage_taken := st.damage_taken ++ [amount] }
      match dm.breakdown with
      | some items =>
        { st with damage_taken_by_type :=
            (items.foldl (fun d p => dictAppend d (pyTitle p.2) p.1)
              st.damage_taken_by_type) }
      | none => st
    else st

/-- The potion block (source lines 446-454). -/
def Tracker.potion_step (st : Tracker) (m : Option String) (now : Int) : Tracker :=
  match m with
  | none => st
  | some user =>
    let user := pyStrip user
    if st.is_player user then { st with player_pots := st.player_pots + 1 }
    else if st.matches_target user then
      let st := st.set_target user
      let st := st.update_encounter_time now
      { st with target_pots := st.target_pots + 1 }
    else st

/-- The undead-self-heal block (source lines 456-462). -/
def Tracker.undead_step (st : Tracker) (m : Option String) (now : Int) : Tracker :=
  match m with
  | none => st
  | some caster =>
    let caster := pyStrip caster
    if st.matches_target caster then
      let st := st.set_target caster
      let st := st.update_encounter_time now
      { st with target_pots := st.target_pots + 1 }
    else st

/-- The kill block (source lines 464-470): note it neither checks the
existing death flag nor touches encounter timing. -/
def Tracker.kill_step (st : Tracker) (m : Option (String × String)) (now : Int) :
    Tracker :=
  match m with
  | none => st
  | some (killer, target) =>
    let killer := pyStrip killer
    let target := rstripPunct (pyStrip target)
    if st.is_player killer && st.matches_target target then
      { st with target_dead := true, kill_time := some now }
    else st

/-- `NWNCombatTracker.parse_line` on a decoded line, `now` being the
wall-clock instant of the call. -/
def Tracker.parse_line (st : Tracker) (L : Line) (now : Int) : Option Tracker := do
  let st ← st.attack_step L.attack now
  let st ← st.save_step L.save now
  let st := st.damage_step L.damage now
  let st := st.potion_step L.potion now
  let st := st.undead_step L.undead now
  let st := st.kill_step L.kill now
  return st

/-! Singleton-line constructors (a line on which exactly one pattern
family matched). -/

def Line.attackOnly (f : AttackForm) : Line := { attack := f }

def Line.saveOnly (m : SaveMatch) : Line := { save := some m }

def Line.damageOnly (m : DamageMatch) : Line := { damage := some m }

def Line.potionOnly (u : String) : Line := { potion := some u }

def Line.undeadOnly (c : String) : Line := { undead := some c }

def Line.killOnly (k t : String) : Line := { kill := some (k, t) }

/-- A line no pattern matched (also the decoded form of an empty line). -/
def Line.empty : Line := {}

/-! ## Helper lemmas: field projections of `set_target` and
`update_encounter_time`, and `parse_line` on singleton lines -/

@[simp] theorem set_target_player_name (st : Tracker) (n : String) :
    (st.set_target n).player_name = st.player_name := by
  unfold Tracker.set_target; split <;> rfl

@[simp] theorem set_target_target_filter (st : Tracker) (n : String) :
    (st.set_target n).target_filter = st.target_filter := by
  unfold Tracker.set_target; split <;> rfl

@[simp] theorem set_target_exact_match (st : Tracker) (n : String) :
    (st.set_target n).exact_match = st.exact_match := by
  unfold Tracker.set_target; split <;> rfl

@[simp] theorem set_target_auto_track (st : Tracker) (n : String) :
    (st.set_target n).auto_track = st.auto_track := by
  unfold Tracker.set_target; split <;> rfl

@[simp] theorem set_target_attack_bonus (st : Tracker) (n : String) :
    (st.set_target n).attack_bonus = st.attack_bonus := by
  unfold Tracker.set_target; split <;> rfl

@[simp] theorem set_target_hits (st : Tracker) (n : String) :
    (st.set_target n).hits = st.hits := by
  unfold Tracker.set_target; split <;> rfl

@[simp] theorem set_target_misses (st : Tracker) (n : String) :
    (st.set_target n).misses = st.misses := by
  unfold Tracker.set_target; split <;> rfl

@[simp] theorem set_target_crits (st : Tracker) (n : String) :
    (st.set_target n).crits = st.crits := by
  unfold Tracker.set_target; split <;> rfl

@[simp] theorem set_target_conceals (st : Tracker) (n : String) :
    (st.set_target n).conceals = st.conceals := by
  unfold Tracker.set_target; split <;> rfl

@[simp] theorem set_target_target_conceal_pct (st : Tracker) (n : String) :
    (st.set_target n).target_conceal_pct = st.target_conceal_pct := by
  unfold Tracker.set_target; split <;> rfl

@[simp] theorem set_target_damage_dealt (st : Tracker) (n : String) :
    (st.set_target n).damage_dealt = st.damage_dealt := by
  unfold Tracker.set_target; split <;> rfl

@[simp] theorem set_target_damage_dealt_crits (st : Tracker) (n : String) :
    (st.set_target n).damage_dealt_crits = st.damage_dealt_crits := by
  unfold Tracker.set_target; split <;> rfl

@[simp] theorem set_target_damage_dealt_normal (st : Tracker) (n : String) :
    (st.set_target n).damage_dealt_normal = st.damage_dealt_normal := by
  unfold Tracker.set_target; split <;> rfl

@[simp] theorem set_target_shield_damage_by_type (st : Tracker) (n : String) :
    (st.set_target n).shield_damage_by_type = st.shield_damage_by_type := by
  unfold Tracker.set_target; split <;> rfl

@[simp] theorem set_target_shield_damage_total (st : Tracker) (n : String) :
    (st.set_target n).shield_damage_total = st.shield_damage_total := by
  unfold Tracker.set_target; split <;> rfl

@[simp] theorem set_target_weapon_buff_damage_by_type (st : Tracker) (n : String) :
    (st.set_target n).weapon_buff_damage_by_type = st.weapon_buff_damage_by_type := by
  unfold Tracker.set_target; split <;> rfl

@[simp] theorem set_target_weapon_buff_damage_total (st : Tracker) (n : String) :
    (st.set_target n).weapon_buff_damage_total = st.weapon_buff_damage_total := by
  unfold Tracker.set_target; split <;> rfl

@[simp] theorem set_target_last_attack_was_player (st : Tracker) (n : String) :
    (st.set_target n).last_attack_was_player = st.last_attack_was_player := by
  unfold Tracker.set_target; split <;> rfl

@[simp] theorem set_target_damage_taken (st : Tracker) (n : String) :
    (st.set_target n).damage_taken = st.damage_taken := by
  unfold Tracker.set_target; split <;> rfl

@[simp] theorem set_target_damage_taken_by_type (st : Tracker) (n : String) :
    (st.set_target n).damage_taken_by_type = st.damage_taken_by_type := by
  unfold Tracker.set_target; split <;> rfl

@[simp] theorem set_target_player_pots (st : Tracker) (n : String) :
    (st.set_target n).player_pots = st.player_pots := by
  unfold Tracker.set_target; split <;> rfl

@[simp] theorem set_target_target_pots (st : Tracker) (n : String) :
    (st.set_target n).target_pots = st.target_pots := by
  unfold Tracker.set_target; split <;> rfl

@[simp] theorem set_target_last_player_hit_was_crit (st : Tracker) (n : String) :
    (st.set_target n).last_player_hit_was_crit = st.last_player_hit_was_crit := by
  unfold Tracker.set_target; split <;> rfl

@[simp] theorem set_target_last_target_hit_was_crit (st : Tracker) (n : String) :
    (st.set_target n).last_target_hit_was_crit = st.last_target_hit_was_crit := by
  unfold Tracker.set_target; split <;> rfl

@[simp] theorem set_target_encounter_start (st : Tracker) (n : String) :
    (st.set_target n).encounter_start = st.encounter_start := by
  unfold Tracker.set_target; split <;> rfl

@[simp] theorem set_target_encounter_last (st : Tracker) (n : String) :
    (st.set_target n).encounter_last = st.encounter_last := by
  unfold Tracker.set_target; split <;> rfl

@[simp] theorem set_target_target_dead (st : Tracker) (n : String) :
    (st.set_target n).target_dead = st.target_dead := by
  unfold Tracker.set_target; split <;> rfl

@[simp] theorem set_target_kill_time (st : Tracker) (n : String) :
    (st.set_target n).kill_time = st.kill_time := by
  unfold Tracker.set_target; split <;> rfl

@[simp] theorem set_target_target_ab (st : Tracker) (n : String) :
    (st.set_target n).target_ab = st.target_ab := by
  unfold Tracker.set_target; split <;> rfl

@[simp] theorem uet_player_name (st : Tracker) (now : Int) :
    (st.update_encounter_time now).player_name = st.player_name := by
  unfold Tracker.update_encounter_time; cases st.encounter_start <;> rfl

@[simp] theorem uet_target_filter (st : Tracker) (now : Int) :
    (st.update_encounter_time now).target_filter = st.target_filter := by
  unfold Tracker.update_encounter_time; cases st.encounter_start <;> rfl

@[simp] theorem uet_exact_match (st : Tracker) (now : Int) :
    (st.update_encounter_time now).exact_match = st.exact_match := by
  unfold Tracker.update_encounter_time; cases st.encounter_start <;> rfl

@[simp] theorem uet_auto_track (st : Tracker) (now : Int) :
    (st.update_encounter_time now).auto_track = st.auto_track := by
  unfold Tracker.update_encounter_time; cases st.encounter_start <;> rfl

@[simp] theorem uet_target_saves (st : Tracker) (now : Int) :
    (st.update_encounter_time now).target_saves = st.target_saves := by
  unfold Tracker.update_encounter_time; cases st.encounter_start <;> rfl

@[simp] theorem uet_target_ac (st : Tracker) (now : Int) :
    (st.update_encounter_time now).target_ac = st.target_ac := by
  unfold Tracker.update_encounter_time; cases st.encounter_start <;> rfl

@[simp] theorem uet_target_name (st : Tracker) (now : Int) :
    (st.update_encounter_time now).target_name = st.target_name := by
  unfold Tracker.update_encounter_time; cases st.encounter_start <;> rfl

@[simp] theorem uet_target_ab (st : Tracker) (now : Int) :
    (st.update_encounter_time now).target_ab = st.target_ab := by
  unfold Tracker.update_encounter_time; cases st.encounter_start <;> rfl

@[simp] theorem uet_attack_bonus (st : Tracker) (now : Int) :
    (st.update_encounter_time now).attack_bonus = st.attack_bonus := by
  unfold Tracker.update_encounter_time; cases st.encounter_start <;> rfl

@[simp] theorem uet_hits (st : Tracker) (now : Int) :
    (st.update_encounter_time now).hits = st.hits := by
  unfold Tracker.update_encounter_time; cases st.encounter_start <;> rfl

@[simp] theorem uet_misses (st : Tracker) (now : Int) :
    (st.update_encounter_time now).misses = st.misses := by
  unfold Tracker.update_encounter_time; cases st.encounter_start <;> rfl

@[simp] theorem uet_crits (st : Tracker) (now : Int) :
    (st.update_encounter_time now).crits = st.crits := by
  unfold Tracker.update_encounter_time; cases st.encounter_start <;> rfl

@[simp] theorem uet_conceals (st : Tracker) (now : Int) :
    (st.update_encounter_time now).conceals = st.conceals := by
  unfold Tracker.update_encounter_time; cases st.encounter_start <;> rfl

@[simp] theorem uet_target_conceal_pct (st : Tracker) (now : Int) :
    (st.update_encounter_time now).target_conceal_pct = st.target_conceal_pct := by
  unfold Tracker.update_encounter_time; cases st.encounter_start <;> rfl

@[simp] theorem uet_damage_dealt (st : Tracker) (now : Int) :
    (st.update_encounter_time now).damage_dealt = st.damage_dealt := by
  unfold Tracker.update_encounter_time; cases st.encounter_start <;> rfl

@[simp] theorem uet_damage_dealt_crits (st : Tracker) (now : Int) :
    (st.update_encounter_time now).damage_dealt_crits = st.damage_dealt_crits := by
  unfold Tracker.update_encounter_time; cases st.encounter_start <;> rfl

@[simp] theorem uet_damage_dealt_normal (st : Tracker) (now : Int) :
    (st.update_encounter_time now).damage_dealt_normal = st.damage_dealt_normal := by
  unfold Tracker.update_encounter_time; cases st.encounter_start <;> rfl

@[simp] theorem uet_shield_damage_by_type (st : Tracker) (now : Int) :
    (st.update_encounter_time now).shield_damage_by_type = st.shield_damage_by_type := by
  unfold Tracker.update_encounter_time; cases st.encounter_start <;> rfl

@[simp] theorem uet_shield_damage_total (st : Tracker) (now : Int) :
    (st.update_encounter_time now).shield_damage_total = st.shield_damage_total := by
  unfold Tracker.update_encounter_time; cases st.encounter_start <;> rfl

@[simp] theorem uet_weapon_buff_damage_by_type (st : Tracker) (now : Int) :
    (st.update_encounter_time now).weapon_buff_damage_by_type = st.weapon_buff_damage_by_type := by
  unfold Tracker.update_encounter_time; cases st.encounter_start <;> rfl

@[simp] theorem uet_weapon_buff_damage_total (st : Tracker) (now : Int) :
    (st.update_encounter_time now).weapon_buff_damage_total = st.weapon_buff_damage_total := by
  unfold Tracker.update_encounter_time; cases st.encounter_start <;> rfl

@[simp] theorem uet_last_attack_was_player (st : Tracker) (now : Int) :
    (st.update_encounter_time now).last_attack_was_player = st.last_attack_was_player := by
  unfold Tracker.update_encounter_time; cases st.encounter_start <;> rfl

@[simp] theorem uet_damage_taken (st : Tracker) (now : Int) :
    (st.update_encounter_time now).damage_taken = st.damage_taken := by
  unfold Tracker.update_encounter_time; cases st.encounter_start <;> rfl

@[simp] theorem uet_damage_taken_by_type (st : Tracker) (now : Int) :
    (st.update_encounter_time now).damage_taken_by_type = st.damage_taken_by_type := by
  unfold Tracker.update_encounter_time; cases st.encounter_start <;> rfl

@[simp] theorem uet_player_pots (st : Tracker) (now : Int) :
    (st.update_encounter_time now).player_pots = st.player_pots := by
  unfold Tracker.update_encounter_time; cases st.encounter_start <;> rfl

@[simp] theorem uet_target_pots (st : Tracker) (now : Int) :
    (st.update_encounter_time now).target_pots = st.target_pots := by
  unfold Tracker.update_encounter_time; cases st.encounter_start <;> rfl

@[simp] theorem uet_last_player_hit_was_crit (st : Tracker) (now : Int) :
    (st.update_encounter_time now).last_player_hit_was_crit = st.last_player_hit_was_crit := by
  unfold Tracker.update_encounter_time; cases st.encounter_start <;> rfl

@[simp] theorem uet_last_target_hit_was_crit (st : Tracker) (now : Int) :
    (st.update_encounter_time now).last_target_hit_was_crit = st.last_target_hit_was_crit := by
  unfold Tracker.update_encounter_time; cases st.encounter_start <;> rfl

@[simp] theorem uet_target_dead (st : Tracker) (now : Int) :
    (st.update_encounter_time now).target_dead = st.target_dead := by
  unfold Tracker.update_encounter_time; cases st.encounter_start <;> rfl

@[simp] theorem uet_kill_time (st : Tracker) (now : Int) :
    (st.update_encounter_time now).kill_time = st.kill_time := by
  unfold Tracker.update_encounter_time; cases st.encounter_start <;> rfl

@[simp] theorem uet_encounter_last (st : Tracker) (now : Int) :
    (st.update_encounter_time now).encounter_last = some now := by
  unfold Tracker.update_encounter_time; cases st.encounter_start <;> rfl

@[simp] theorem uet_encounter_start (st : Tracker) (now : Int) :
    (st.update_encounter_time now).encounter_start
      = some (st.encounter_start.getD now) := by
  unfold Tracker.update_encounter_time; cases h : st.encounter_start <;> simp [h]

theorem set_target_of_bound (st : Tracker) (n : String)
    (h : (st.target_name == "") = false) : st.set_target n = st := by
  unfold Tracker.set_target; rw [h]; rfl

@[simp] theorem parse_line_attackOnly (st : Tracker) (f : AttackForm) (now : Int) :
    st.parse_line (Line.attackOnly f) now = st.attack_step f now := by
  unfold Tracker.parse_line Line.attackOnly
  cases h : st.attack_step f now <;>
    simp [h, Tracker.save_step, Tracker.damage_step, Tracker.potion_step,
      Tracker.undead_step, Tracker.kill_step]

@[simp] theorem parse_line_saveOnly (st : Tracker) (m : SaveMatch) (now : Int) :
    st.parse_line (Line.saveOnly m) now = st.save_step (some m) now := by
  unfold Tracker.parse_line Line.saveOnly
  cases h : st.save_step (some m) now <;>
    simp [h, Tracker.attack_step, Tracker.damage_step, Tracker.potion_step,
      Tracker.undead_step, Tracker.kill_step]

@[simp] theorem parse_line_damageOnly (st : Tracker) (m : DamageMatch) (now : Int) :
    st.parse_line (Line.damageOnly m) now = some (st.damage_step (some m) now) := by
  unfold Tracker.parse_line Line.damageOnly
  simp [Tracker.attack_step, Tracker.save_step, Tracker.potion_step,
    Tracker.undead_step, Tracker.kill_step]

@[simp] theorem parse_line_potionOnly (st : Tracker) (u : String) (now : Int) :
    st.parse_line (Line.potionOnly u) now = some (st.potion_step (some u) now) := by
  unfold Tracker.parse_line Line.potionOnly
  simp [Tracker.attack_step, Tracker.save_step, Tracker.damage_step,
    Tracker.undead_step, Tracker.kill_step]

@[simp] theorem parse_line_killOnly (st : Tracker) (k t : String) (now : Int) :
    st.parse_line (Line.killOnly k t) now = some (st.kill_step (some (k, t)) now) := by
  unfold Tracker.parse_line Line.killOnly
  simp [Tracker.attack_step, Tracker.save_step, Tracker.damage_step,
    Tracker.potion_step, Tracker.undead_step]

@[simp] theorem parse_line_undeadOnly (st : Tracker) (c : String) (now : Int) :
    st.parse_line (Line.undeadOnly c) now = some (st.undead_step (some c) now) := by
  unfold Tracker.parse_line Line.undeadOnly
  simp [Tracker.attack_step, Tracker.save_step, Tracker.damage_step,
    Tracker.potion_step, Tracker.kill_step]

@[simp] theorem parse_line_empty (st : Tracker) (now : Int) :
    st.parse_line Line.empty now = some st := by
  unfold Tracker.parse_line Line.empty
  simp [Tracker.attack_step, Tracker.save_step, Tracker.damage_step,
    Tracker.potion_step, Tracker.undead_step, Tracker.kill_step]

/-! ## Claim C4: the AC estimate case analysis -/

/-- C4: the AC estimate string is a total function of the two bounds with
exactly the spec's case analysis: both bounds known with
`max_miss + 1 = min_hit` gives the exact value, `max_miss < min_hit` gives
the range, `max_miss ≥ min_hit` gives the approximate `~min_hit` form,
one-sided knowledge gives the `≤`/`>` forms, and no knowledge gives the
unknown marker.  `EnemyAC.get_ac_estimate` coincides with that case
analysis (`specAcEstimate`) on every pair of bounds. -/
theorem C4_thm : ∀ ac : EnemyAC,
    ac.get_ac_estimate = specAcEstimate ac.min_hit ac.max_miss := by
  intro ac
  cases h1 : ac.min_hit <;> cases h2 : ac.max_miss <;>
    simp [EnemyAC.get_ac_estimate, specAcEstimate, h1, h2]

/-! ## Claim C1: the rolling attack-bonus window -/

theorem windowMax_of_pruned (l : List (Int × Int)) (cutoff : Int)
    (h : ∀ q ∈ l, q.1 > cutoff) : windowMax l cutoff = maxOfBonuses l := by
  unfold windowMax
  rw [List.filter_eq_self.mpr]
  intro a ha
  exact decide_eq_true (h a ha)

theorem update_recent_eq (ab : AttackBonus) (b now : Int) :
    (ab.update b now).recent_attacks
      = (ab.recent_attacks ++ [(now, b)]).filter
          (fun q => q.1 > now - ab.window_seconds) := rfl

theorem update_window_eq (ab : AttackBonus) (b now : Int) :
    (ab.update b now).window_seconds = ab.window_seconds := rfl

theorem update_max_eq (ab : AttackBonus) (b now : Int) :
    (ab.update b now).max_observed
      = (match maxOfBonuses (ab.update b now).recent_attacks with
         | some m => m
         | none => b) := rfl

theorem refresh_recent_eq (ab : AttackBonus) (now : Int) :
    (ab.refresh now).recent_attacks
      = ab.recent_attacks.filter (fun q => q.1 > now - ab.window_seconds) := by
  unfold AttackBonus.refresh AttackBonus.prune_old
  cases h : maxOfBonuses (ab.recent_attacks.filter
      (fun q => decide (q.1 > now - ab.window_seconds))) <;> simp [h]

theorem refresh_max_eq (ab : AttackBonus) (now : Int)
    (h : (ab.refresh now).recent_attacks ≠ []) :
    maxOfBonuses (ab.refresh now).recent_attacks = some (ab.refresh now).max_observed := by
  unfold AttackBonus.refresh AttackBonus.prune_old
  unfold AttackBonus.refresh AttackBonus.prune_old at h
  cases hm : maxOfBonuses (ab.recent_attacks.filter
      (fun q => decide (q.1 > now - ab.window_seconds))) with
  | some m => simp_all
  | none =>
    simp only [hm] at h ⊢
    cases hl : ab.recent_attacks.filter
        (fun q => decide (q.1 > now - ab.window_seconds)) with
    | nil => simp_all
    | cons p rest => rw [hl] at hm; simp [maxOfBonuses] at hm

/-- C1 (amended): entries older than the window are purged on every
`update` and every `refresh` call, and as long as at least one observation
survives inside the window, `max_observed` equals the maximum bonus among
the observations newer than `now - window`.  (The original claim fails
when every observation has aged out: `refresh` then retains the previous
`max_observed`; see the counterexample.) -/
theorem C1_thm : ∀ (ab : AttackBonus) (b now : Int),
    ((∀ q ∈ (ab.update b now).recent_attacks, q.1 > now - ab.window_seconds) ∧
     ((ab.update b now).recent_attacks ≠ [] →
       windowMax (ab.update b now).recent_attacks (now - ab.window_seconds)
         = some (ab.update b now).max_observed)) ∧
    ((∀ q ∈ (ab.refresh now).recent_attacks, q.1 > now - ab.window_seconds) ∧
     ((ab.refresh now).recent_attacks ≠ [] →
       windowMax (ab.refresh now).recent_attacks (now - ab.window_seconds)
         = some (ab.refresh now).max_observed)) := by
  intro ab b now
  have hupd : ∀ q ∈ (ab.update b now).recent_attacks, q.1 > now - ab.window_seconds := by
    intro q hq
    rw [update_recent_eq] at hq
    exact of_decide_eq_true (List.mem_filter.mp hq).2
  have hrfr : ∀ q ∈ (ab.refresh now).recent_attacks, q.1 > now - ab.window_seconds := by
    intro q hq
    rw [refresh_recent_eq] at hq
    exact of_decide_eq_true (List.mem_filter.mp hq).2
  refine ⟨⟨hupd, ?_⟩, ⟨hrfr, ?_⟩⟩
  · intro hne
    rw [windowMax_of_pruned _ _ hupd]
    rw [update_max_eq]
    cases hl : (ab.update b now).recent_attacks with
    | nil => exact absurd hl hne
    | cons p rest => simp [maxOfBonuses]
  · intro hne
    rw [windowMax_of_pruned _ _ hrfr]
    exact refresh_max_eq ab now hne

/-- C1 counterexample: update with bonus 5 at time 0, then refresh at time
100 with a 30-second window.  Every observation has been purged, yet
`max_observed` is still 5 — it does not equal the maximum bonus among
observations newer than `100 - 30` (there is no such observation). -/
theorem C1_counterexample :
    ((AttackBonus.init.update 5 0).refresh 100).max_observed = 5 ∧
    ((AttackBonus.init.update 5 0).refresh 100).recent_attacks = [] ∧
    windowMax ((AttackBonus.init.update 5 0).refresh 100).recent_attacks
        (100 - ((AttackBonus.init.update 5 0).refresh 100).window_seconds)
      ≠ some ((AttackBonus.init.update 5 0).refresh 100).max_observed := by
  decide

/-- C1 witness: a fresh update at time 0 keeps its observation in the
window and `max_observed` equals the windowed maximum. -/
theorem C1_witness :
    (AttackBonus.init.update 7 0).recent_attacks ≠ [] ∧
    windowMax (AttackBonus.init.update 7 0).recent_attacks
        (0 - AttackBonus.init.window_seconds)
      = some (AttackBonus.init.update 7 0).max_observed :=
  ⟨by decide, (C1_thm AttackBonus.init 7 0).1.2 (by decide)⟩

/-! ## Claim C8: the line preprocessor -/

theorem dropWhile_head_false {α} (p : α → Bool) :
    ∀ (l : List α) c t, l.dropWhile p = c :: t → p c = false := by
  intro l
  induction l with
  | nil => intro c t h; cases h
  | cons a as ih =>
    intro c t h
    rw [List.dropWhile_cons] at h
    cases hpa : p a with
    | true => rw [hpa] at h; simp at h; exact ih c t h
    | false => rw [hpa] at h; simp at h; rw [← h.1]; exact hpa

theorem dropWhile_of_head_false {α} (p : α → Bool) (l : List α)
    (h : ∀ c t, l = c :: t → p c = false) : l.dropWhile p = l := by
  cases l with
  | nil => rfl
  | cons a as => rw [List.dropWhile_cons, h a as rfl]; simp

theorem dropWhile_getLast? {α} (p : α → Bool) :
    ∀ (l : List α), l.dropWhile p ≠ [] → (l.dropWhile p).getLast? = l.getLast? := by
  intro l
  induction l with
  | nil => intro h; exact absurd rfl h
  | cons a as ih =>
    intro h
    rw [List.dropWhile_cons] at h ⊢
    cases hpa : p a with
    | false => simp
    | true =>
      rw [hpa, if_pos rfl] at h
      rw [if_pos rfl]
      cases as with
      | nil => simp at h
      | cons b bs =>
        rw [List.getLast?_cons_cons]
        exact ih h

theorem trimL_idem (l : List Char) : trimL (trimL l) = trimL l := by
  unfold trimL
  set X := ((l.dropWhile isSpacePy).reverse.dropWhile isSpacePy) with hX
  have hXdrop : X.dropWhile isSpacePy = X := by
    rw [hX]
    apply dropWhile_of_head_false
    intro c t h
    exact dropWhile_head_false isSpacePy _ c t h
  have hrev : X.reverse.dropWhile isSpacePy = X.reverse := by
    apply dropWhile_of_head_false
    intro c t h
    have hne : X ≠ [] := by
      intro hnil
      rw [hnil] at h
      cases h
    have hlast : X.getLast? = some c := by
      rw [← List.head?_reverse, h]; rfl
    have hXne : (l.dropWhile isSpacePy).reverse.dropWhile isSpacePy ≠ [] := by
      rw [← hX]; exact hne
    have h2 : X.getLast? = ((l.dropWhile isSpacePy).reverse).getLast? := by
      rw [hX]; exact dropWhile_getLast? isSpacePy _ hXne
    rw [List.getLast?_reverse] at h2
    have h3 : (l.dropWhile isSpacePy).head? = some c := by rw [← h2, hlast]
    cases hd : l.dropWhile isSpacePy with
    | nil => rw [hd] at h3; cases h3
    | cons d ds =>
      rw [hd] at h3
      have : d = c := by injection h3
      rw [← this]
      exact dropWhile_head_false isSpacePy l d ds hd
  rw [hrev, List.reverse_reverse, hXdrop]

theorem pyStrip_idem (s : String) : pyStrip (pyStrip s) = pyStrip s := by
  unfold pyStrip
  rw [trimL_idem]

theorem stripChatTag_no_tag (s : String) (h : matchChatTag s.data = none) :
    stripChatTag s = pyStrip s := by
  unfold stripChatTag chatTagSub
  rw [h]

/-- C8 (amended): the preprocessor is total; an input with no metadata
prefix is returned unchanged except for whitespace trimming; and applying
the preprocessor to its own output is a no-op whenever that output does
not itself begin with another metadata prefix.  (Full idempotence fails:
the substitution removes at most one `[CHAT WINDOW TEXT] [...]` tag, so a
doubled tag survives one application; see the counterexample.) -/
theorem C8_thm :
    (∀ s : String, matchChatTag s.data = none → stripChatTag s = pyStrip s) ∧
    (∀ s : String, matchChatTag (stripChatTag s).data = none →
      stripChatTag (stripChatTag s) = stripChatTag s) := by
  refine ⟨stripChatTag_no_tag, ?_⟩
  intro s h
  rw [stripChatTag_no_tag _ h]
  unfold stripChatTag
  exact pyStrip_idem _

/-- C8 counterexample: a line carrying two metadata tags is not a fixed
point of the preprocessor after one application, refuting idempotence for
all inputs. -/
theorem C8_counterexample :
    stripChatTag (stripChatTag "[CHAT WINDOW TEXT] [a] [CHAT WINDOW TEXT] [b] x")
      ≠ stripChatTag "[CHAT WINDOW TEXT] [a] [CHAT WINDOW TEXT] [b] x" := by
  decide

/-- C8 witness: the amended theorem applied to a prefix-free input and to a
singly-tagged input. -/
theorem C8_witness :
    stripChatTag " hello " = pyStrip " hello " ∧
    stripChatTag (stripChatTag "[CHAT WINDOW TEXT] [x] hi")
      = stripChatTag "[CHAT WINDOW TEXT] [x] hi" :=
  ⟨C8_thm.1 " hello " (by decide), C8_thm.2 "[CHAT WINDOW TEXT] [x] hi" (by decide)⟩

/-! ## Claim C5: AC bounds over a sequence of recorded outcomes -/

/-- One recorded player-attack outcome as fed into the AC estimator
(`record_hit` on hits, `record_miss` with the nat-1 flag on misses). -/
inductive AcEvent where
  | hit (total : Int)
  | miss (total : Int) (was_nat1 : Bool)
deriving Repr, DecidableEq

/-- Route one outcome to the estimator exactly as `parse_line` does. -/
def EnemyAC.apply_event (ac : EnemyAC) : AcEvent → EnemyAC
  | .hit t => ac.record_hit t
  | .miss t n1 => ac.record_miss t n1

def applyAcEvents (ac : EnemyAC) : List AcEvent → EnemyAC
  | [] => ac
  | e :: rest => applyAcEvents (ac.apply_event e) rest

/-- The totals of the recorded hits. -/
def hitTotals : List AcEvent → List Int
  | [] => []
  | .hit t :: rest => t :: hitTotals rest
  | .miss _ _ :: rest => hitTotals rest

/-- The totals of the recorded misses whose natural roll was not a 1. -/
def missTotals : List AcEvent → List Int
  | [] => []
  | .hit _ :: rest => missTotals rest
  | .miss t false :: rest => t :: missTotals rest
  | .miss _ true :: rest => missTotals rest

def minStep (o : Option Int) (t : Int) : Option Int :=
  some (match o with | none => t | some v => min v t)

def maxStep (o : Option Int) (t : Int) : Option Int :=
  some (match o with | none => t | some v => max v t)

def listMinOpt : List Int → Option Int
  | [] => none
  | x :: xs => some (xs.foldl min x)

def listMaxOpt : List Int → Option Int
  | [] => none
  | x :: xs => some (xs.foldl max x)

theorem record_hit_min_hit (ac : EnemyAC) (t : Int) :
    (ac.record_hit t).min_hit = minStep ac.min_hit t := by
  unfold EnemyAC.record_hit minStep
  cases h : ac.min_hit with
  | none => simp [h]
  | some v =>
    simp only [h]
    split <;> simp_all <;> omega

theorem record_hit_max_miss (ac : EnemyAC) (t : Int) :
    (ac.record_hit t).max_miss = ac.max_miss := by
  unfold EnemyAC.record_hit
  split <;> rfl

theorem record_miss_nat1 (ac : EnemyAC) (t : Int) : ac.record_miss t true = ac := rfl

theorem record_miss_min_hit (ac : EnemyAC) (t : Int) (n1 : Bool) :
    (ac.record_miss t n1).min_hit = ac.min_hit := by
  unfold EnemyAC.record_miss
  cases n1 with
  | true => rfl
  | false =>
    simp only [Bool.not_false, if_true]
    split <;> rfl

theorem record_miss_max_miss (ac : EnemyAC) (t : Int) :
    (ac.record_miss t false).max_miss = maxStep ac.max_miss t := by
  unfold EnemyAC.record_miss maxStep
  simp only [Bool.not_false, if_true]
  cases h : ac.max_miss with
  | none => simp [h]
  | some v =>
    simp only [h]
    split <;> simp_all <;> omega

theorem applyAcEvents_min (evs : List AcEvent) : ∀ ac : EnemyAC,
    (applyAcEvents ac evs).min_hit = (hitTotals evs).foldl minStep ac.min_hit := by
  induction evs with
  | nil => intro ac; rfl
  | cons e rest ih =>
    intro ac
    cases e with
    | hit t =>
      simp only [applyAcEvents, EnemyAC.apply_event, hitTotals, List.foldl_cons]
      rw [ih, record_hit_min_hit]
    | miss t n1 =>
      simp only [applyAcEvents, EnemyAC.apply_event, hitTotals]
      rw [ih, record_miss_min_hit]

theorem applyAcEvents_max (evs : List AcEvent) : ∀ ac : EnemyAC,
    (applyAcEvents ac evs).max_miss = (missTotals evs).foldl maxStep ac.max_miss := by
  induction evs with
  | nil => intro ac; rfl
  | cons e rest ih =>
    intro ac
    cases e with
    | hit t =>
      simp only [applyAcEvents, EnemyAC.apply_event, missTotals]
      rw [ih, record_hit_max_miss]
    | miss t n1 =>
      cases n1 with
      | false =>
        simp only [applyAcEvents, EnemyAC.apply_event, missTotals, List.foldl_cons]
        rw [ih, record_miss_max_miss]
      | true =>
        simp only [applyAcEvents, EnemyAC.apply_event, missTotals]
        rw [ih, record_miss_nat1]

theorem foldl_minStep_some (l : List Int) : ∀ a : Int,
    l.foldl minStep (some a) = some (l.foldl min a) := by
  induction l with
  | nil => intro a; rfl
  | cons x xs ih =>
    intro a
    simp only [List.foldl_cons]
    rw [show minStep (some a) x = some (min a x) from rfl, ih]

theorem foldl_minStep_none (l : List Int) : l.foldl minStep none = listMinOpt l := by
  cases l with
  | nil => rfl
  | cons x xs =>
    simp only [List.foldl_cons, listMinOpt]
    rw [show minStep none x = some x from rfl, foldl_minStep_some]

theorem foldl_maxStep_some (l : List Int) : ∀ a : Int,
    l.foldl maxStep (some a) = some (l.foldl max a) := by
  induction l with
  | nil => intro a; rfl
  | cons x xs ih =>
    intro a
    simp only [List.foldl_cons]
    rw [show maxStep (some a) x = some (max a x) from rfl, ih]

theorem foldl_maxStep_none (l : List Int) : l.foldl maxStep none = listMaxOpt l := by
  cases l with
  | nil => rfl
  | cons x xs =>
    simp only [List.foldl_cons, listMaxOpt]
    rw [show maxStep none x = some x from rfl, foldl_maxStep_some]

theorem sc_hit_of_miss : strContains "hit" "miss" = false := by decide

theorem sc_hit_of_parried : strContains "hit" "parried" = false := by decide

theorem sc_hit_of_resisted : strContains "hit" "resisted" = false := by decide

theorem sc_critical_of_miss : strContains "critical" "miss" = false := by decide

theorem sc_critical_of_parried : strContains "critical" "parried" = false := by decide

theorem sc_critical_of_resisted : strContains "critical" "resisted" = false := by decide

/-- Outcome tokens classified as misses produce no hit/crit flags: closed
facts about the substring tests the source performs. -/
theorem miss_outcome_facts : ∀ o : String,
    o = "miss" ∨ o = "parried" ∨ o = "resisted" →
    (strContains "hit" o && !strContains "miss" o) = false ∧
    strContains "critical" o = false ∧
    (o == "miss" || o == "parried" || o == "resisted") = true := by
  rintro o (rfl | rfl | rfl) <;> exact ⟨by decide, by decide, by decide⟩

/-- C5: over any sequence of recorded outcomes in one encounter,
`min_hit` is the minimum total among recorded hits and `max_miss` the
maximum total among recorded misses excluding natural-1 misses (conjunct
1); each single recorded outcome only tightens the bounds — `min_hit`
never increases, `max_miss` never decreases (conjuncts 2 and 3); a
natural-1 miss leaves the estimator entirely unchanged (conjunct 4); and
in `parse_line` a player miss with natural roll 1 still increments the
miss counter while leaving the AC estimator untouched (conjunct 5). -/
theorem C5_thm :
    (∀ (nm : String) (evs : List AcEvent),
      (applyAcEvents { name := nm } evs).min_hit = listMinOpt (hitTotals evs) ∧
      (applyAcEvents { name := nm } evs).max_miss = listMaxOpt (missTotals evs)) ∧
    (∀ (ac : EnemyAC) (e : AcEvent) (v : Int), ac.min_hit = some v →
      ∃ w, (ac.apply_event e).min_hit = some w ∧ w ≤ v) ∧
    (∀ (ac : EnemyAC) (e : AcEvent) (v : Int), ac.max_miss = some v →
      ∃ w, (ac.apply_event e).max_miss = some w ∧ v ≤ w) ∧
    (∀ (ac : EnemyAC) (t : Int), ac.record_miss t true = ac) ∧
    (∀ (st : Tracker) (now : Int) (a t o : String) (b tt : Int),
      st.is_player (pyStrip a) = true → st.matches_target (pyStrip t) = true →
      (st.target_name == "") = false → pyLower o = "miss" →
      (st.parse_line (Line.attackOnly (.plain a t o (some (1, b, tt)))) now).map
          Tracker.misses = some (st.misses + 1) ∧
      (st.parse_line (Line.attackOnly (.plain a t o (some (1, b, tt)))) now).map
          Tracker.target_ac = some st.target_ac) := by
  refine ⟨?_, ?_, ?_, record_miss_nat1, ?_⟩
  · intro nm evs
    constructor
    · rw [applyAcEvents_min]
      exact foldl_minStep_none _
    · rw [applyAcEvents_max]
      exact foldl_maxStep_none _
  · intro ac e v h
    cases e with
    | hit t =>
      refine ⟨min v t, ?_, min_le_left v t⟩
      show (ac.record_hit t).min_hit = some (min v t)
      rw [record_hit_min_hit, h]
      rfl
    | miss t n1 =>
      refine ⟨v, ?_, le_refl v⟩
      show (ac.record_miss t n1).min_hit = some v
      rw [record_miss_min_hit, h]
  · intro ac e v h
    cases e with
    | hit t =>
      refine ⟨v, ?_, le_refl v⟩
      show (ac.record_hit t).max_miss = some v
      rw [record_hit_max_miss, h]
    | miss t n1 =>
      cases n1 with
      | false =>
        refine ⟨max v t, ?_, le_max_left v t⟩
        show (ac.record_miss t false).max_miss = some (max v t)
        rw [record_miss_max_miss, h]
        rfl
      | true =>
        refine ⟨v, ?_, le_refl v⟩
        show (ac.record_miss t true).max_miss = some v
        rw [record_miss_nat1, h]
  · intro st now a t o b tt hP hT hName hO
    obtain ⟨hh, hc, hm⟩ := miss_outcome_facts (pyLower o) (Or.inl hO)
    rw [parse_line_attackOnly]
    unfold Tracker.attack_step Tracker.attack_body
    cases hac : st.target_ac with
    | none =>
      simp [hP, hT, hO, hac, set_target_of_bound _ _ hName, sc_hit_of_miss,
        sc_critical_of_miss]
    | some ac =>
      simp [hP, hT, hO, hac, set_target_of_bound _ _ hName, sc_hit_of_miss,
        sc_critical_of_miss, record_miss_nat1]

/-! ## Concrete states used by witnesses -/

/-- A session in lock mode with player "Azoni Stout" locked onto opponent
"Korgan". -/
def stW : Tracker :=
  { Tracker.init "Azoni Stout" "" false true with
      target_name := "Korgan",
      target_saves := some { name := "Korgan" },
      target_ac := some { name := "Korgan" } }

/-- C5 witness: concrete instances of the fold characterisation, the
tightening bounds and the natural-1 miss in `parse_line`. -/
theorem C5_witness :
    (∃ w, ((⟨"k", some 10, none⟩ : EnemyAC).apply_event (.hit 7)).min_hit
        = some w ∧ w ≤ 10) ∧
    (∃ w, ((⟨"k", none, some 3⟩ : EnemyAC).apply_event (.miss 9 false)).max_miss
        = some w ∧ 3 ≤ w) ∧
    (stW.parse_line (Line.attackOnly (.plain "Azoni Stout" "Korgan" "miss"
        (some (1, 4, 20)))) 0).map Tracker.misses = some (stW.misses + 1) ∧
    (stW.parse_line (Line.attackOnly (.plain "Azoni Stout" "Korgan" "miss"
        (some (1, 4, 20)))) 0).map Tracker.target_ac = some stW.target_ac :=
  ⟨C5_thm.2.1 ⟨"k", some 10, none⟩ (.hit 7) 10 rfl,
   C5_thm.2.2.1 ⟨"k", none, some 3⟩ (.miss 9 false) 3 rfl,
   (C5_thm.2.2.2.2 stW 0 "Azoni Stout" "Korgan" "miss" 4 20
      (by decide) (by decide) (by decide) (by decide)).1,
   (C5_thm.2.2.2.2 stW 0 "Azoni Stout" "Korgan" "miss" 4 20
      (by decide) (by decide) (by decide) (by decide)).2⟩

/-! ## Claim C2: the kill branch -/

/-- C2 (amended): every matched kill event — first or repeated — whose
killer is the player and whose stripped victim name matches the tracked
opponent sets `target_dead` to `true` and assigns `kill_time` to the time
of that processing call, touching nothing else.  In particular
`target_dead`, once set, is never unset within a session, but a repeated
matched kill line re-assigns `kill_time` to its own (later) processing
time rather than leaving it unchanged; see the counterexample. -/
theorem C2_thm : ∀ (st : Tracker) (now : Int) (k v : String),
    st.is_player (pyStrip k) = true →
    st.matches_target (rstripPunct (pyStrip v)) = true →
    st.parse_line (Line.killOnly k v) now
      = some { st with target_dead := true, kill_time := some now } := by
  intro st now k v hK hT
  rw [parse_line_killOnly]
  unfold Tracker.kill_step
  simp [hK, hT]

/-- C2 counterexample: after the player's kill line for the locked
opponent is processed at time 1, processing the identical line again at
time 2 moves `kill_time` from `some 1` to `some 2`, contradicting
"processing the same kill line a second time does not change kill_time". -/
theorem C2_counterexample :
    (((Tracker.init "Azoni Stout" "" false true).parse_line
        (Line.attackOnly (.plain "Azoni Stout" "Korgan" "hit" none)) 0).bind
      (fun s => s.parse_line (Line.killOnly "Azoni Stout" "Korgan.") 1)).map
        Tracker.kill_time = some (some 1) ∧
    ((((Tracker.init "Azoni Stout" "" false true).parse_line
        (Line.attackOnly (.plain "Azoni Stout" "Korgan" "hit" none)) 0).bind
      (fun s => s.parse_line (Line.killOnly "Azoni Stout" "Korgan.") 1)).bind
      (fun s => s.parse_line (Line.killOnly "Azoni Stout" "Korgan.") 2)).map
        Tracker.kill_time = some (some 2) := by
  decide

/-- C2 witness: the amended theorem at the locked session. -/
theorem C2_witness :
    stW.parse_line (Line.killOnly "Azoni Stout" "Korgan.") 5
      = some { stW with target_dead := true, kill_time := some 5 } :=
  C2_thm stW 5 "Azoni Stout" "Korgan." (by decide) (by decide)

/-! ## Claim C6: the concealment-pending attack form -/

/-- C6: a concealment-pending attack line from the player against the
matched opponent leaves the hit, miss and crit counters unchanged, while
recording the concealment percentage and feeding the bonus into the
rolling attack-bonus window. -/
theorem C6_thm : ∀ (st : Tracker) (now : Int) (a t : String)
    (cp r b tt : Int),
    st.is_player (pyStrip a) = true → st.matches_target (pyStrip t) = true →
    (st.parse_line (Line.attackOnly (.pending a t cp r b tt)) now).map
        Tracker.hits = some st.hits ∧
    (st.parse_line (Line.attackOnly (.pending a t cp r b tt)) now).map
        Tracker.misses = some st.misses ∧
    (st.parse_line (Line.attackOnly (.pending a t cp r b tt)) now).map
        Tracker.crits = some st.crits ∧
    (st.parse_line (Line.attackOnly (.pending a t cp r b tt)) now).map
        Tracker.target_conceal_pct = some (some cp) ∧
    (st.parse_line (Line.attackOnly (.pending a t cp r b tt)) now).map
        Tracker.attack_bonus = some (st.attack_bonus.update b now) := by
  intro st now a t cp r b tt hP hT
  rw [parse_line_attackOnly]
  unfold Tracker.attack_step Tracker.attack_body
  simp [hP, hT]

/-- C6 witness: a concrete pending line against the locked session. -/
theorem C6_witness :
    (stW.parse_line (Line.attackOnly (.pending "Azoni Stout" "Korgan" 50 12 20 32)) 4).map
        Tracker.hits = some stW.hits ∧
    (stW.parse_line (Line.attackOnly (.pending "Azoni Stout" "Korgan" 50 12 20 32)) 4).map
        Tracker.target_conceal_pct = some (some 50) ∧
    (stW.parse_line (Line.attackOnly (.pending "Azoni Stout" "Korgan" 50 12 20 32)) 4).map
        Tracker.attack_bonus = some (stW.attack_bonus.update 20 4) :=
  ⟨(C6_thm stW 4 "Azoni Stout" "Korgan" 50 12 20 32 (by decide) (by decide)).1,
   (C6_thm stW 4 "Azoni Stout" "Korgan" 50 12 20 32 (by decide) (by decide)).2.2.2.1,
   (C6_thm stW 4 "Azoni Stout" "Korgan" 50 12 20 32 (by decide) (by decide)).2.2.2.2⟩

/-! ## Claim C3: damage classification -/

theorem damage_step_char (st : Tracker) (m : DamageMatch) (now : Int)
    (hP : st.is_player (pyStrip m.attacker) = true)
    (hT : st.matches_target (pyStrip m.target) = true) :
    (st.damage_step (some m) now).weapon_buff_damage_total
      = st.weapon_buff_damage_total +
        (match singleOf m.breakdown with
         | some _ => if st.last_attack_was_player then m.amount else 0
         | none => 0) ∧
    (st.damage_step (some m) now).shield_damage_total
      = st.shield_damage_total +
        (match singleOf m.breakdown with
         | some _ => if st.last_attack_was_player then 0 else m.amount
         | none => 0) ∧
    (st.damage_step (some m) now).damage_dealt
      = st.damage_dealt +
        (match singleOf m.breakdown with
         | some _ => 0
         | none => m.amount) ∧
    (st.damage_step (some m) now).damage_dealt_crits
      = st.damage_dealt_crits ++
        (match singleOf m.breakdown with
         | some _ => []
         | none => if st.last_player_hit_was_crit then [m.amount] else []) ∧
    (st.damage_step (some m) now).damage_dealt_normal
      = st.damage_dealt_normal ++
        (match singleOf m.breakdown with
         | some _ => []
         | none => if st.last_player_hit_was_crit then [] else [m.amount]) ∧
    (st.damage_step (some m) now).weapon_buff_damage_by_type
      = (match singleOf m.breakdown with
         | some (d, _) =>
           if st.last_attack_was_player then
             dictAdd st.weapon_buff_damage_by_type d m.amount
           else st.weapon_buff_damage_by_type
         | none => st.weapon_buff_damage_by_type) ∧
    (st.damage_step (some m) now).shield_damage_by_type
      = (match singleOf m.breakdown with
         | some (d, _) =>
           if st.last_attack_was_player then st.shield_damage_by_type
           else dictAdd st.shield_damage_by_type d m.amount
         | none => st.shield_damage_by_type) := by
  unfold Tracker.damage_step
  cases hs : singleOf m.breakdown with
  | none =>
    cases hcrit : st.last_player_hit_was_crit <;> simp [hP, hT, hs, hcrit]
  | some pr =>
    obtain ⟨d, da⟩ := pr
    cases hflag : st.last_attack_was_player <;> simp [hP, hT, hs, hflag]

/-- C3: for a player-to-opponent damage line, a breakdown with exactly one
nonzero component routes the (full) amount to the weapon-buff ledger when
the last resolved player action was an attack hit and to the shield /
reflect ledger otherwise (total and per-type, leaving the plain-weapon
ledger untouched); a breakdown with zero or several nonzero components, or
no breakdown at all, adds the amount to plain weapon damage and appends it
to the crit or normal list according to the latched crit flag (leaving the
buff and reflect ledgers untouched). -/
theorem C3_thm : ∀ (st : Tracker) (now : Int) (a t : String) (amount : Int)
    (bd : Option (List (Int × String))),
    st.is_player (pyStrip a) = true → st.matches_target (pyStrip t) = true →
    ((∀ items d da, bd = some items → nonzeroTypes items = [(d, da)] →
      (st.parse_line (Line.damageOnly ⟨a, t, amount, bd⟩) now).map
          Tracker.weapon_buff_damage_total
        = some (st.weapon_buff_damage_total +
            if st.last_attack_was_player then amount else 0) ∧
      (st.parse_line (Line.damageOnly ⟨a, t, amount, bd⟩) now).map
          Tracker.shield_damage_total
        = some (st.shield_damage_total +
            if st.last_attack_was_player then 0 else amount) ∧
      (st.parse_line (Line.damageOnly ⟨a, t, amount, bd⟩) now).map
          Tracker.weapon_buff_damage_by_type
        = some (if st.last_attack_was_player then
              dictAdd st.weapon_buff_damage_by_type d amount
            else st.weapon_buff_damage_by_type) ∧
      (st.parse_line (Line.damageOnly ⟨a, t, amount, bd⟩) now).map
          Tracker.shield_damage_by_type
        = some (if st.last_attack_was_player then st.shield_damage_by_type
            else dictAdd st.shield_damage_by_type d amount) ∧
      (st.parse_line (Line.damageOnly ⟨a, t, amount, bd⟩) now).map
          Tracker.damage_dealt = some st.damage_dealt ∧
      (st.parse_line (Line.damageOnly ⟨a, t, amount, bd⟩) now).map
          Tracker.damage_dealt_crits = some st.damage_dealt_crits ∧
      (st.parse_line (Line.damageOnly ⟨a, t, amount, bd⟩) now).map
          Tracker.damage_dealt_normal = some st.damage_dealt_normal) ∧
     (∀ items, bd = some items → (nonzeroTypes items).length ≠ 1 →
      (st.parse_line (Line.damageOnly ⟨a, t, amount, bd⟩) now).map
          Tracker.damage_dealt = some (st.damage_dealt + amount) ∧
      (st.parse_line (Line.damageOnly ⟨a, t, amount, bd⟩) now).map
          Tracker.damage_dealt_crits
        = some (st.damage_dealt_crits ++
            if st.last_player_hit_was_crit then [amount] else []) ∧
      (st.parse_line (Line.damageOnly ⟨a, t, amount, bd⟩) now).map
          Tracker.damage_dealt_normal
        = some (st.damage_dealt_normal ++
            if st.last_player_hit_was_crit then [] else [amount]) ∧
      (st.parse_line (Line.damageOnly ⟨a, t, amount, bd⟩) now).map
          Tracker.weapon_buff_damage_total = some st.weapon_buff_damage_total ∧
      (st.parse_line (Line.damageOnly ⟨a, t, amount, bd⟩) now).map
          Tracker.shield_damage_total = some st.shield_damage_total) ∧
     (bd = none →
      (st.parse_line (Line.damageOnly ⟨a, t, amount, bd⟩) now).map
          Tracker.damage_dealt = some (st.damage_dealt + amount) ∧
      (st.parse_line (Line.damageOnly ⟨a, t, amount, bd⟩) now).map
          Tracker.damage_dealt_crits
        = some (st.damage_dealt_crits ++
            if st.last_player_hit_was_crit then [amount] else []) ∧
      (st.parse_line (Line.damageOnly ⟨a, t, amount, bd⟩) now).map
          Tracker.damage_dealt_normal
        = some (st.damage_dealt_normal ++
            if st.last_player_hit_was_crit then [] else [amount]) ∧
      (st.parse_line (Line.damageOnly ⟨a, t, amount, bd⟩) now).map
          Tracker.weapon_buff_damage_total = some st.weapon_buff_damage_total ∧
      (st.parse_line (Line.damageOnly ⟨a, t, amount, bd⟩) now).map
          Tracker.shield_damage_total = some st.shield_damage_total)) := by
  intro st now a t amount bd hP hT
  obtain ⟨h1, h2, h3, h4, h5, h6, h7⟩ :=
    damage_step_char st ⟨a, t, amount, bd⟩ now hP hT
  refine ⟨?_, ?_, ?_⟩
  · intro items d da hbd hnz
    have hsingle : singleOf bd = some (d, da) := by
      rw [hbd]; simp [singleOf, hnz]
    rw [hsingle] at h1 h2 h3 h4 h5 h6 h7
    simp only [parse_line_damageOnly, Option.map_some']
    simp [h1, h2, h3, h4, h5, h6, h7]
  · intro items hbd hlen
    have hsingle : singleOf bd = none := by
      rw [hbd]; simp [singleOf, hlen]
    rw [hsingle] at h1 h2 h3 h4 h5 h6 h7
    simp only [parse_line_damageOnly, Option.map_some']
    simp [h1, h2, h3, h4, h5]
  · intro hbd
    have hsingle : singleOf bd = none := by rw [hbd]; rfl
    rw [hsingle] at h1 h2 h3 h4 h5 h6 h7
    simp only [parse_line_damageOnly, Option.map_some']
    simp [h1, h2, h3, h4, h5]

/-- C3 witness: a single-nonzero-type fire proc and a no-breakdown line
against the locked session. -/
theorem C3_witness :
    (stW.parse_line (Line.damageOnly ⟨"Azoni Stout", "Korgan", 7,
        some [(7, "fire")]⟩) 3).map Tracker.weapon_buff_damage_total
      = some (stW.weapon_buff_damage_total +
          if stW.last_attack_was_player then 7 else 0) ∧
    (stW.parse_line (Line.damageOnly ⟨"Azoni Stout", "Korgan", 9, none⟩) 3).map
        Tracker.damage_dealt = some (stW.damage_dealt + 9) :=
  ⟨((C3_thm stW 3 "Azoni Stout" "Korgan" 7 (some [(7, "fire")])
      (by decide) (by decide)).1 [(7, "fire")] "Fire" 7 rfl (by decide)).1,
   ((C3_thm stW 3 "Azoni Stout" "Korgan" 9 none
      (by decide) (by decide)).2.2 rfl).1⟩

/-! ## Claim C10: misses do not latch the exchange-classification flags -/

theorem beq_parried_miss : ("parried" == "miss") = false := by decide

theorem beq_resisted_miss : ("resisted" == "miss") = false := by decide

theorem beq_resisted_parried : ("resisted" == "parried") = false := by decide

theorem set_target_of_empty (st : Tracker) (n : String)
    (h : (st.target_name == "") = true) :
    st.set_target n = { st with
        target_name := rstripPunct (pyStrip n),
        target_saves := some { name := rstripPunct (pyStrip n) },
        target_ac := some { name := rstripPunct (pyStrip n) } } := by
  unfold Tracker.set_target
  rw [h]
  simp

/-- A player attack line with a miss-class outcome and no roll breakdown
changes only the miss counter and the encounter timestamps. -/
theorem uet_eq (st : Tracker) (now : Int) :
    st.update_encounter_time now
      = { st with encounter_start := some (st.encounter_start.getD now),
                  encounter_last := some now } := by
  unfold Tracker.update_encounter_time
  cases h : st.encounter_start <;> simp [h]

theorem miss_line_state (st : Tracker) (now : Int) (a t o : String)
    (hP : st.is_player (pyStrip a) = true)
    (hT : st.matches_target (pyStrip t) = true)
    (hName : (st.target_name == "") = false)
    (hO : pyLower o = "miss" ∨ pyLower o = "parried" ∨ pyLower o = "resisted") :
    st.parse_line (Line.attackOnly (.plain a t o none)) now
      = some { st with
               misses := st.misses + 1,
               encounter_start := some (st.encounter_start.getD now),
               encounter_last := some now } := by
  rw [parse_line_attackOnly]
  unfold Tracker.attack_step Tracker.attack_body
  rcases hO with hO | hO | hO <;>
    simp [hP, hT, hO, set_target_of_bound _ _ hName, uet_eq,
      sc_hit_of_miss, sc_hit_of_parried, sc_hit_of_resisted,
      beq_parried_miss, beq_resisted_miss, beq_resisted_parried]

/-- The ledger fields written by the damage block depend only on the
matching configuration, the bound opponent name and the latched
classification flags and ledger fields. -/
theorem damage_step_congr (s1 s2 : Tracker) (m : DamageMatch) (now : Int)
    (hpn : s1.player_name = s2.player_name)
    (hat : s1.auto_track = s2.auto_track)
    (htn : s1.target_name = s2.target_name)
    (htf : s1.target_filter = s2.target_filter)
    (hem : s1.exact_match = s2.exact_match)
    (hflag : s1.last_attack_was_player = s2.last_attack_was_player)
    (hcrit : s1.last_player_hit_was_crit = s2.last_player_hit_was_crit)
    (hw : s1.weapon_buff_damage_total = s2.weapon_buff_damage_total)
    (hsh : s1.shield_damage_total = s2.shield_damage_total)
    (hd : s1.damage_dealt = s2.damage_dealt) :
    (s1.damage_step (some m) now).weapon_buff_damage_total
      = (s2.damage_step (some m) now).weapon_buff_damage_total ∧
    (s1.damage_step (some m) now).shield_damage_total
      = (s2.damage_step (some m) now).shield_damage_total ∧
    (s1.damage_step (some m) now).damage_dealt
      = (s2.damage_step (some m) now).damage_dealt := by
  have hip : ∀ x, s1.is_player x = s2.is_player x := by
    intro x; unfold Tracker.is_player; rw [hpn]
  have hmt : ∀ x, s1.matches_target x = s2.matches_target x := by
    intro x; unfold Tracker.matches_target Tracker.is_player
    rw [hpn, hat, htn, htf, hem]
  unfold Tracker.damage_step
  dsimp only
  simp only [hip, hmt]
  cases hg : s2.is_player (pyStrip m.attacker) && s2.matches_target (pyStrip m.target) with
  | true =>
    simp only [hg]
    cases hsg : singleOf m.breakdown with
    | some pr =>
      obtain ⟨d, da⟩ := pr
      cases hf : s2.last_attack_was_player <;>
        simp [hsg, hflag, hf, hw, hsh, hd]
    | none =>
      cases hc : s2.last_player_hit_was_crit <;>
        simp [hsg, hcrit, hc, hw, hsh, hd]
  | false =>
    cases hg2 : s2.matches_target (pyStrip m.attacker) && s2.is_player (pyStrip m.target) <;>
      cases hbd : m.breakdown <;>
        simp [hw, hsh, hd]

/-- C10: a player attack whose outcome is miss, parried or resisted leaves
`last_attack_was_player` and `last_player_hit_was_crit` unchanged — both
for the plain attack form (conjunct 1, any roll breakdown) and for the
concealment form with an outcome (conjunct 2) — so a subsequent damage
line is classified exactly as it would have been without the intervening
miss (conjunct 3: the buff, reflect and plain-weapon ledgers receive the
same values whether or not a miss line was processed in between). -/
theorem C10_thm :
    (∀ (st : Tracker) (now : Int) (a t o : String)
       (rbt : Option (Int × Int × Int)),
      st.is_player (pyStrip a) = true → st.matches_target (pyStrip t) = true →
      (pyLower o = "miss" ∨ pyLower o = "parried" ∨ pyLower o = "resisted") →
      (st.parse_line (Line.attackOnly (.plain a t o rbt)) now).map
          Tracker.last_attack_was_player = some st.last_attack_was_player ∧
      (st.parse_line (Line.attackOnly (.plain a t o rbt)) now).map
          Tracker.last_player_hit_was_crit = some st.last_player_hit_was_crit) ∧
    (∀ (st : Tracker) (now : Int) (a t o : String) (cp r b tt : Int),
      st.is_player (pyStrip a) = true → st.matches_target (pyStrip t) = true →
      (pyLower o = "miss" ∨ pyLower o = "parried" ∨ pyLower o = "resisted") →
      (st.parse_line (Line.attackOnly (.conceal a t cp r b tt o)) now).map
          Tracker.last_attack_was_player = some st.last_attack_was_player ∧
      (st.parse_line (Line.attackOnly (.conceal a t cp r b tt o)) now).map
          Tracker.last_player_hit_was_crit = some st.last_player_hit_was_crit) ∧
    (∀ (st : Tracker) (now1 now2 : Int) (a t o a2 t2 : String) (amount : Int)
       (bd : Option (List (Int × String))) (st1 : Tracker),
      st.is_player (pyStrip a) = true → st.matches_target (pyStrip t) = true →
      (st.target_name == "") = false →
      (pyLower o = "miss" ∨ pyLower o = "parried" ∨ pyLower o = "resisted") →
      st.parse_line (Line.attackOnly (.plain a t o none)) now1 = some st1 →
      (st1.parse_line (Line.damageOnly ⟨a2, t2, amount, bd⟩) now2).map
          Tracker.weapon_buff_damage_total
        = (st.parse_line (Line.damageOnly ⟨a2, t2, amount, bd⟩) now2).map
            Tracker.weapon_buff_damage_total ∧
      (st1.parse_line (Line.damageOnly ⟨a2, t2, amount, bd⟩) now2).map
          Tracker.shield_damage_total
        = (st.parse_line (Line.damageOnly ⟨a2, t2, amount, bd⟩) now2).map
            Tracker.shield_damage_total ∧
      (st1.parse_line (Line.damageOnly ⟨a2, t2, amount, bd⟩) now2).map
          Tracker.damage_dealt
        = (st.parse_line (Line.damageOnly ⟨a2, t2, amount, bd⟩) now2).map
            Tracker.damage_dealt) := by
  refine ⟨?_, ?_, ?_⟩
  · intro st now a t o rbt hP hT hO
    rw [parse_line_attackOnly]
    unfold Tracker.attack_step Tracker.attack_body
    rcases hO with hO | hO | hO <;>
      (cases rbt with
       | none =>
         simp [hP, hT, hO,
           sc_hit_of_miss, sc_hit_of_parried, sc_hit_of_resisted,
           beq_parried_miss, beq_resisted_miss, beq_resisted_parried]
       | some trip =>
         obtain ⟨r, b, tt⟩ := trip
         cases hname : st.target_name == "" with
         | true =>
           simp [hP, hT, hO, set_target_of_empty _ _ hname,
             sc_hit_of_miss, sc_hit_of_parried, sc_hit_of_resisted,
             beq_parried_miss, beq_resisted_miss, beq_resisted_parried]
         | false =>
           cases hac : st.target_ac <;>
             simp [hP, hT, hO, set_target_of_bound _ _ hname, hac,
               sc_hit_of_miss, sc_hit_of_parried, sc_hit_of_resisted,
               beq_parried_miss, beq_resisted_miss, beq_resisted_parried])
  · intro st now a t o cp r b tt hP hT hO
    rw [parse_line_attackOnly]
    unfold Tracker.attack_step Tracker.attack_body
    rcases hO with hO | hO | hO <;>
      (cases hname : st.target_name == "" with
       | true =>
         simp [hP, hT, hO, set_target_of_empty _ _ hname,
           sc_hit_of_miss, sc_hit_of_parried, sc_hit_of_resisted,
           beq_parried_miss, beq_resisted_miss, beq_resisted_parried]
       | false =>
         cases hac : st.target_ac <;>
           simp [hP, hT, hO, set_target_of_bound _ _ hname, hac,
             sc_hit_of_miss, sc_hit_of_parried, sc_hit_of_resisted,
             beq_parried_miss, beq_resisted_miss, beq_resisted_parried])
  · intro st now1 now2 a t o a2 t2 amount bd st1 hP hT hName hO hst1
    rw [miss_line_state st now1 a t o hP hT hName hO] at hst1
    have hst1' : st1 = { st with
        misses := st.misses + 1,
        encounter_start := some (st.encounter_start.getD now1),
        encounter_last := some now1 } := by
      injection hst1 with h
      exact h.symm
    subst hst1'
    have hcg := damage_step_congr
      { st with
        misses := st.misses + 1,
        encounter_start := some (st.encounter_start.getD now1),
        encounter_last := some now1 }
      st ⟨a2, t2, amount, bd⟩ now2 rfl rfl rfl rfl rfl rfl rfl rfl rfl rfl
    simp only [parse_line_damageOnly, Option.map_some']
    exact ⟨congrArg some hcg.1, congrArg some hcg.2.1, congrArg some hcg.2.2⟩

/-- C10 witness: a concrete player miss for the locked session leaves both
classification flags unchanged. -/
theorem C10_witness :
    (stW.parse_line (Line.attackOnly (.plain "Azoni Stout" "Korgan" "miss" none)) 0).map
        Tracker.last_attack_was_player = some stW.last_attack_was_player ∧
    (stW.parse_line (Line.attackOnly (.plain "Azoni Stout" "Korgan" "miss" none)) 0).map
        Tracker.last_player_hit_was_crit = some stW.last_player_hit_was_crit :=
  C10_thm.1 stW 0 "Azoni Stout" "Korgan" "miss" none (by decide) (by decide)
    (Or.inl (by decide))

/-! ## Claim C7: encounter timing -/

set_option maxHeartbeats 3200000 in
/-- A matched player attack line (plain form) always stamps
`encounter_last` with the processing time and sets `encounter_start`
lazily (keeping any value it already has). -/
theorem attack_line_time (st : Tracker) (now : Int) (a t o : String)
    (rbt : Option (Int × Int × Int))
    (hP : st.is_player (pyStrip a) = true)
    (hT : st.matches_target (pyStrip t) = true) :
    (st.parse_line (Line.attackOnly (.plain a t o rbt)) now).map
        Tracker.encounter_last = some (some now) ∧
    (st.parse_line (Line.attackOnly (.plain a t o rbt)) now).map
        Tracker.encounter_start = some (some (st.encounter_start.getD now)) := by
  rw [parse_line_attackOnly]
  unfold Tracker.attack_step Tracker.attack_body
  simp only [hP, hT]
  repeat' split
  all_goals try simp_all
  all_goals exfalso
  all_goals rename_i hcond hexcl
  all_goals obtain ⟨hrs, hacs⟩ := hcond
  all_goals obtain ⟨⟨r, b, tt⟩, hrbt⟩ := Option.isSome_iff_exists.mp hrs
  all_goals subst hrbt
  all_goals simp at hacs
  all_goals obtain ⟨ac, hac⟩ := Option.isSome_iff_exists.mp hacs
  all_goals exact hexcl tt ac r b rfl hac

/-- A matched save line stamps `encounter_last` and lazily sets
`encounter_start`. -/
theorem save_line_time (st : Tracker) (now : Int) (m : SaveMatch)
    (hT : st.matches_target (pyStrip m.target) = true) :
    (st.parse_line (Line.saveOnly m) now).map Tracker.encounter_last
      = some (some now) ∧
    (st.parse_line (Line.saveOnly m) now).map Tracker.encounter_start
      = some (some (st.encounter_start.getD now)) := by
  rw [parse_line_saveOnly]
  unfold Tracker.save_step
  simp only [hT]
  repeat' split
  all_goals simp_all

/-- A matched player-to-opponent damage line stamps `encounter_last` and
lazily sets `encounter_start`. -/
theorem damage_line_time (st : Tracker) (now : Int) (m : DamageMatch)
    (hP : st.is_player (pyStrip m.attacker) = true)
    (hT : st.matches_target (pyStrip m.target) = true) :
    (st.parse_line (Line.damageOnly m) now).map Tracker.encounter_last
      = some (some now) ∧
    (st.parse_line (Line.damageOnly m) now).map Tracker.encounter_start
      = some (some (st.encounter_start.getD now)) := by
  rw [parse_line_damageOnly]
  unfold Tracker.damage_step
  simp only [hP, hT]
  repeat' split
  all_goals simp_all

/-- A matched opponent potion line stamps `encounter_last` and lazily sets
`encounter_start`. -/
theorem potion_target_time (st : Tracker) (now : Int) (u : String)
    (h0 : st.is_player (pyStrip u) = false)
    (hT : st.matches_target (pyStrip u) = true) :
    (st.parse_line (Line.potionOnly u) now).map Tracker.encounter_last
      = some (some now) ∧
    (st.parse_line (Line.potionOnly u) now).map Tracker.encounter_start
      = some (some (st.encounter_start.getD now)) := by
  rw [parse_line_potionOnly]
  unfold Tracker.potion_step
  simp [h0, hT]

/-- A player potion line leaves encounter timing untouched. -/
theorem potion_player_time (st : Tracker) (now : Int) (u : String)
    (hP : st.is_player (pyStrip u) = true) :
    (st.parse_line (Line.potionOnly u) now).map Tracker.encounter_last
      = some st.encounter_last ∧
    (st.parse_line (Line.potionOnly u) now).map Tracker.encounter_start
      = some st.encounter_start := by
  rw [parse_line_potionOnly]
  unfold Tracker.potion_step
  simp [hP]

/-- A matched kill line leaves encounter timing untouched. -/
theorem kill_line_time (st : Tracker) (now : Int) (k v : String)
    (hK : st.is_player (pyStrip k) = true)
    (hT : st.matches_target (rstripPunct (pyStrip v)) = true) :
    (st.parse_line (Line.killOnly k v) now).map Tracker.encounter_last
      = some st.encounter_last ∧
    (st.parse_line (Line.killOnly k v) now).map Tracker.encounter_start
      = some st.encounter_start := by
  rw [parse_line_killOnly]
  unfold Tracker.kill_step
  simp [hK, hT]

/-- A matched player concealment-miss line (`pat_conceal_miss`) stamps
`encounter_last` and lazily sets `encounter_start`. -/
theorem conceal_miss_time (st : Tracker) (now : Int) (a t : String) (c : Int)
    (hP : st.is_player (pyStrip a) = true)
    (hT : st.matches_target (pyStrip t) = true) :
    (st.parse_line (Line.attackOnly (.concealMiss a t c)) now).map
        Tracker.encounter_last = some (some now) ∧
    (st.parse_line (Line.attackOnly (.concealMiss a t c)) now).map
        Tracker.encounter_start = some (some (st.encounter_start.getD now)) := by
  rw [parse_line_attackOnly]
  unfold Tracker.attack_step
  simp [hP, hT]

/-- A matched opponent-to-player damage line (source line 432) stamps
`encounter_last` and lazily sets `encounter_start`. -/
theorem damage_opp_time (st : Tracker) (now : Int) (m : DamageMatch)
    (h0 : st.is_player (pyStrip m.attacker) = false)
    (hTa : st.matches_target (pyStrip m.attacker) = true)
    (hPt : st.is_player (pyStrip m.target) = true) :
    (st.parse_line (Line.damageOnly m) now).map Tracker.encounter_last
      = some (some now) ∧
    (st.parse_line (Line.damageOnly m) now).map Tracker.encounter_start
      = some (some (st.encounter_start.getD now)) := by
  rw [parse_line_damageOnly]
  unfold Tracker.damage_step
  simp only [h0, hTa, hPt, Bool.false_and]
  repeat' split
  all_goals simp_all

set_option maxHeartbeats 3200000 in
/-- A matched player attack line in the concealment-with-outcome form
stamps `encounter_last` and lazily sets `encounter_start`. -/
theorem conceal_line_time (st : Tracker) (now : Int) (a t : String)
    (c r b tt : Int) (o : String)
    (hP : st.is_player (pyStrip a) = true)
    (hT : st.matches_target (pyStrip t) = true) :
    (st.parse_line (Line.attackOnly (.conceal a t c r b tt o)) now).map
        Tracker.encounter_last = some (some now) ∧
    (st.parse_line (Line.attackOnly (.conceal a t c r b tt o)) now).map
        Tracker.encounter_start = some (some (st.encounter_start.getD now)) := by
  rw [parse_line_attackOnly]
  unfold Tracker.attack_step Tracker.attack_body
  simp only [hP, hT]
  repeat' split
  all_goals try simp_all
  all_goals exfalso
  all_goals rename_i hcond hexcl
  all_goals obtain ⟨ac, hac⟩ := Option.isSome_iff_exists.mp hcond
  all_goals exact hexcl tt ac rfl hac

set_option maxHeartbeats 3200000 in
/-- A matched player attack line in the concealment-pending form stamps
`encounter_last` and lazily sets `encounter_start`. -/
theorem pending_line_time (st : Tracker) (now : Int) (a t : String)
    (c r b tt : Int)
    (hP : st.is_player (pyStrip a) = true)
    (hT : st.matches_target (pyStrip t) = true) :
    (st.parse_line (Line.attackOnly (.pending a t c r b tt)) now).map
        Tracker.encounter_last = some (some now) ∧
    (st.parse_line (Line.attackOnly (.pending a t c r b tt)) now).map
        Tracker.encounter_start = some (some (st.encounter_start.getD now)) := by
  rw [parse_line_attackOnly]
  unfold Tracker.attack_step Tracker.attack_body
  simp [hP, hT]

set_option maxHeartbeats 3200000 in
/-- A matched opponent-to-player attack line (source line 343, plain form)
stamps `encounter_last` and lazily sets `encounter_start`. -/
theorem opp_plain_time (st : Tracker) (now : Int) (a t o : String)
    (rbt : Option (Int × Int × Int))
    (h0 : st.is_player (pyStrip a) = false)
    (hTa : st.matches_target (pyStrip a) = true)
    (hPt : st.is_player (pyStrip t) = true) :
    (st.parse_line (Line.attackOnly (.plain a t o rbt)) now).map
        Tracker.encounter_last = some (some now) ∧
    (st.parse_line (Line.attackOnly (.plain a t o rbt)) now).map
        Tracker.encounter_start = some (some (st.encounter_start.getD now)) := by
  rw [parse_line_attackOnly]
  unfold Tracker.attack_step Tracker.attack_body
  simp only [h0, hTa, hPt, Bool.false_and]
  repeat' split
  all_goals simp_all

set_option maxHeartbeats 3200000 in
/-- A matched opponent-to-player attack line in the
concealment-with-outcome form stamps `encounter_last` and lazily sets
`encounter_start`. -/
theorem opp_conceal_time (st : Tracker) (now : Int) (a t : String)
    (c r b tt : Int) (o : String)
    (h0 : st.is_player (pyStrip a) = false)
    (hTa : st.matches_target (pyStrip a) = true)
    (hPt : st.is_player (pyStrip t) = true) :
    (st.parse_line (Line.attackOnly (.conceal a t c r b tt o)) now).map
        Tracker.encounter_last = some (some now) ∧
    (st.parse_line (Line.attackOnly (.conceal a t c r b tt o)) now).map
        Tracker.encounter_start = some (some (st.encounter_start.getD now)) := by
  rw [parse_line_attackOnly]
  unfold Tracker.attack_step Tracker.attack_body
  simp only [h0, hTa, hPt, Bool.false_and]
  repeat' split
  all_goals simp_all

set_option maxHeartbeats 3200000 in
/-- A matched opponent-to-player attack line in the concealment-pending
form stamps `encounter_last` and lazily sets `encounter_start`. -/
theorem opp_pending_time (st : Tracker) (now : Int) (a t : String)
    (c r b tt : Int)
    (h0 : st.is_player (pyStrip a) = false)
    (hTa : st.matches_target (pyStrip a) = true)
    (hPt : st.is_player (pyStrip t) = true) :
    (st.parse_line (Line.attackOnly (.pending a t c r b tt)) now).map
        Tracker.encounter_last = some (some now) ∧
    (st.parse_line (Line.attackOnly (.pending a t c r b tt)) now).map
        Tracker.encounter_start = some (some (st.encounter_start.getD now)) := by
  rw [parse_line_attackOnly]
  unfold Tracker.attack_step Tracker.attack_body
  simp only [h0, hTa, hPt, Bool.false_and]
  repeat' split
  all_goals simp_all

/-- A matched undead-self-heal line stamps `encounter_last` and lazily
sets `encounter_start`. -/
theorem undead_line_time (st : Tracker) (now : Int) (c : String)
    (hT : st.matches_target (pyStrip c) = true) :
    (st.parse_line (Line.undeadOnly c) now).map Tracker.encounter_last
      = some (some now) ∧
    (st.parse_line (Line.undeadOnly c) now).map Tracker.encounter_start
      = some (some (st.encounter_start.getD now)) := by
  rw [parse_line_undeadOnly]
  unfold Tracker.undead_step
  simp [hT]

/-- C7 (amended): `encounter_start` is set lazily — every matched line
that reaches `_update_encounter_time` stamps `encounter_last` with its
processing time and assigns `encounter_start` only when it is still unset
(an already bound start is preserved, final conjunct).  That covers player
attack lines in all three forms (plain, concealment-with-outcome,
concealment-pending) and the concealment-miss form, opponent-to-player
attack lines in all three forms, matched saves, damage in both
directions, opponent potions and undead self-heals — while matched kill
events and player potion events leave both timing fields entirely
unchanged, contrary to the original claim's "including matched kill
events and matched potion events"; see the counterexample. -/
theorem C7_thm :
    (∀ (st : Tracker) (now : Int) (a t o : String) (rbt : Option (Int × Int × Int)),
      st.is_player (pyStrip a) = true → st.matches_target (pyStrip t) = true →
      (st.parse_line (Line.attackOnly (.plain a t o rbt)) now).map
          Tracker.encounter_last = some (some now) ∧
      (st.parse_line (Line.attackOnly (.plain a t o rbt)) now).map
          Tracker.encounter_start = some (some (st.encounter_start.getD now))) ∧
    (∀ (st : Tracker) (now : Int) (a t : String) (c r b tt : Int) (o : String),
      st.is_player (pyStrip a) = true → st.matches_target (pyStrip t) = true →
      (st.parse_line (Line.attackOnly (.conceal a t c r b tt o)) now).map
          Tracker.encounter_last = some (some now) ∧
      (st.parse_line (Line.attackOnly (.conceal a t c r b tt o)) now).map
          Tracker.encounter_start = some (some (st.encounter_start.getD now))) ∧
    (∀ (st : Tracker) (now : Int) (a t : String) (c r b tt : Int),
      st.is_player (pyStrip a) = true → st.matches_target (pyStrip t) = true →
      (st.parse_line (Line.attackOnly (.pending a t c r b tt)) now).map
          Tracker.encounter_last = some (some now) ∧
      (st.parse_line (Line.attackOnly (.pending a t c r b tt)) now).map
          Tracker.encounter_start = some (some (st.encounter_start.getD now))) ∧
    (∀ (st : Tracker) (now : Int) (a t : String) (c : Int),
      st.is_player (pyStrip a) = true → st.matches_target (pyStrip t) = true →
      (st.parse_line (Line.attackOnly (.concealMiss a t c)) now).map
          Tracker.encounter_last = some (some now) ∧
      (st.parse_line (Line.attackOnly (.concealMiss a t c)) now).map
          Tracker.encounter_start = some (some (st.encounter_start.getD now))) ∧
    (∀ (st : Tracker) (now : Int) (a t o : String) (rbt : Option (Int × Int × Int)),
      st.is_player (pyStrip a) = false → st.matches_target (pyStrip a) = true →
      st.is_player (pyStrip t) = true →
      (st.parse_line (Line.attackOnly (.plain a t o rbt)) now).map
          Tracker.encounter_last = some (some now) ∧
      (st.parse_line (Line.attackOnly (.plain a t o rbt)) now).map
          Tracker.encounter_start = some (some (st.encounter_start.getD now))) ∧
    (∀ (st : Tracker) (now : Int) (a t : String) (c r b tt : Int) (o : String),
      st.is_player (pyStrip a) = false → st.matches_target (pyStrip a) = true →
      st.is_player (pyStrip t) = true →
      (st.parse_line (Line.attackOnly (.conceal a t c r b tt o)) now).map
          Tracker.encounter_last = some (some now) ∧
      (st.parse_line (Line.attackOnly (.conceal a t c r b tt o)) now).map
          Tracker.encounter_start = some (some (st.encounter_start.getD now))) ∧
    (∀ (st : Tracker) (now : Int) (a t : String) (c r b tt : Int),
      st.is_player (pyStrip a) = false → st.matches_target (pyStrip a) = true →
      st.is_player (pyStrip t) = true →
      (st.parse_line (Line.attackOnly (.pending a t c r b tt)) now).map
          Tracker.encounter_last = some (some now) ∧
      (st.parse_line (Line.attackOnly (.pending a t c r b tt)) now).map
          Tracker.encounter_start = some (some (st.encounter_start.getD now))) ∧
    (∀ (st : Tracker) (now : Int) (m : SaveMatch),
      st.matches_target (pyStrip m.target) = true →
      (st.parse_line (Line.saveOnly m) now).map Tracker.encounter_last
        = some (some now) ∧
      (st.parse_line (Line.saveOnly m) now).map Tracker.encounter_start
        = some (some (st.encounter_start.getD now))) ∧
    (∀ (st : Tracker) (now : Int) (m : DamageMatch),
      st.is_player (pyStrip m.attacker) = true →
      st.matches_target (pyStrip m.target) = true →
      (st.parse_line (Line.damageOnly m) now).map Tracker.encounter_last
        = some (some now) ∧
      (st.parse_line (Line.damageOnly m) now).map Tracker.encounter_start
        = some (some (st.encounter_start.getD now))) ∧
    (∀ (st : Tracker) (now : Int) (m : DamageMatch),
      st.is_player (pyStrip m.attacker) = false →
      st.matches_target (pyStrip m.attacker) = true →
      st.is_player (pyStrip m.target) = true →
      (st.parse_line (Line.damageOnly m) now).map Tracker.encounter_last
        = some (some now) ∧
      (st.parse_line (Line.damageOnly m) now).map Tracker.encounter_start
        = some (some (st.encounter_start.getD now))) ∧
    (∀ (st : Tracker) (now : Int) (u : String),
      st.is_player (pyStrip u) = false → st.matches_target (pyStrip u) = true →
      (st.parse_line (Line.potionOnly u) now).map Tracker.encounter_last
        = some (some now) ∧
      (st.parse_line (Line.potionOnly u) now).map Tracker.encounter_start
        = some (some (st.encounter_start.getD now))) ∧
    (∀ (st : Tracker) (now : Int) (c : String),
      st.matches_target (pyStrip c) = true →
      (st.parse_line (Line.undeadOnly c) now).map Tracker.encounter_last
        = some (some now) ∧
      (st.parse_line (Line.undeadOnly c) now).map Tracker.encounter_start
        = some (some (st.encounter_start.getD now))) ∧
    (∀ (st : Tracker) (now : Int) (u : String),
      st.is_player (pyStrip u) = true →
      (st.parse_line (Line.potionOnly u) now).map Tracker.encounter_last
        = some st.encounter_last ∧
      (st.parse_line (Line.potionOnly u) now).map Tracker.encounter_start
        = some st.encounter_start) ∧
    (∀ (st : Tracker) (now : Int) (k v : String),
      st.is_player (pyStrip k) = true →
      st.matches_target (rstripPunct (pyStrip v)) = true →
      (st.parse_line (Line.killOnly k v) now).map Tracker.encounter_last
        = some st.encounter_last ∧
      (st.parse_line (Line.killOnly k v) now).map Tracker.encounter_start
        = some st.encounter_start) ∧
    (∀ (st : Tracker) (now : Int) (a t o : String)
       (rbt : Option (Int × Int × Int)) (s : Int),
      st.is_player (pyStrip a) = true → st.matches_target (pyStrip t) = true →
      st.encounter_start = some s →
      (st.parse_line (Line.attackOnly (.plain a t o rbt)) now).map
          Tracker.encounter_start = some (some s)) := by
  refine ⟨attack_line_time, conceal_line_time, pending_line_time,
    conceal_miss_time, opp_plain_time, opp_conceal_time, opp_pending_time,
    save_line_time, damage_line_time, damage_opp_time, potion_target_time,
    undead_line_time, potion_player_time, kill_line_time, ?_⟩
  intro st now a t o rbt s hP hT hs
  have h := (attack_line_time st now a t o rbt hP hT).2
  rw [hs] at h
  exact h

/-- C7 counterexample: with the encounter already started at time 0 by an
attack line, processing the matched kill line at time 9 leaves
`encounter_last` at `some 0` — it does not equal the time the kill line
was processed. -/
theorem C7_counterexample :
    ((((Tracker.init "Azoni Stout" "" false true).parse_line
        (Line.attackOnly (.plain "Azoni Stout" "Korgan" "hit" none)) 0).bind
      (fun s => s.parse_line (Line.killOnly "Azoni Stout" "Korgan.") 9)).map
        Tracker.encounter_last = some (some 0)) ∧
    ¬ ((((Tracker.init "Azoni Stout" "" false true).parse_line
        (Line.attackOnly (.plain "Azoni Stout" "Korgan" "hit" none)) 0).bind
      (fun s => s.parse_line (Line.killOnly "Azoni Stout" "Korgan.") 9)).map
        Tracker.encounter_last = some (some 9)) := by
  decide

/-- C7 witness: the plain-attack, undead-heal and kill conjuncts at
concrete inputs. -/
theorem C7_witness :
    (stW.parse_line (Line.attackOnly (.plain "Azoni Stout" "Korgan" "hit"
        (some (15, 20, 35)))) 6).map Tracker.encounter_last = some (some 6) ∧
    (stW.parse_line (Line.undeadOnly "Korgan") 8).map Tracker.encounter_last
      = some (some 8) ∧
    (stW.parse_line (Line.killOnly "Azoni Stout" "Korgan.") 7).map
        Tracker.encounter_last = some stW.encounter_last := by
  obtain ⟨h1, -, -, -, -, -, -, -, -, -, -, h12, -, h14, -⟩ := C7_thm
  exact ⟨(h1 stW 6 "Azoni Stout" "Korgan" "hit" (some (15, 20, 35))
      (by decide) (by decide)).1,
    (h12 stW 8 "Korgan" (by decide)).1,
    (h14 stW 7 "Azoni Stout" "Korgan." (by decide) (by decide)).1⟩

/-! ## Claim C9: totality of the public operations -/

set_option maxHeartbeats 3200000 in
/-- Every guarded `None`-attribute access in the attack block is safe. -/
theorem attack_body_isSome (st : Tracker) (d : AttackData) (now : Int) :
    (st.attack_body d now).isSome = true := by
  obtain ⟨da, dt, dout, dc, dr, db, dtt, dp⟩ := d
  unfold Tracker.attack_body
  repeat' split
  all_goals try simp_all
  all_goals try (repeat' split)
  all_goals try simp_all
  all_goals try simp
  all_goals try (repeat' split)
  all_goals try simp_all
  all_goals exfalso
  all_goals rename_i hcond hexcl
  all_goals obtain ⟨h1, h2⟩ := hcond
  all_goals obtain ⟨tt, htt⟩ := Option.isSome_iff_exists.mp h1
  all_goals obtain ⟨ac, hac⟩ := Option.isSome_iff_exists.mp h2
  all_goals exact hexcl tt ac htt hac

theorem attack_step_isSome (st : Tracker) (f : AttackForm) (now : Int) :
    (st.attack_step f now).isSome = true := by
  cases f with
  | conceal a t c r b tt o => exact attack_body_isSome _ _ _
  | pending a t c r b tt => exact attack_body_isSome _ _ _
  | plain a t o rbt => exact attack_body_isSome _ _ _
  | noMatch => rfl
  | concealMiss a t c => unfold Tracker.attack_step; simp

theorem save_step_isSome (st : Tracker) (m : Option SaveMatch) (now : Int) :
    (st.save_step m now).isSome = true := by
  unfold Tracker.save_step
  repeat' split
  all_goals try simp_all
  all_goals try simp
  all_goals try (repeat' split)
  all_goals simp_all

theorem parse_line_isSome (st : Tracker) (L : Line) (now : Int) :
    (st.parse_line L now).isSome = true := by
  unfold Tracker.parse_line
  obtain ⟨s1, h1⟩ := Option.isSome_iff_exists.mp (attack_step_isSome st L.attack now)
  obtain ⟨s2, h2⟩ := Option.isSome_iff_exists.mp (save_step_isSome s1 L.save now)
  simp [h1, h2]

/-- C9: the public operations are total.  Processing any decoded line in
any tracker state returns normally (never hits an unguarded `None`
attribute access, the only failure the embedding can express); a line no
pattern matched is plain control flow, leaving the state unchanged; and
`reset` is total, clearing the session fields while preserving the
configuration. -/
theorem C9_thm :
    (∀ (st : Tracker) (L : Line) (now : Int), ∃ st', st.parse_line L now = some st') ∧
    (∀ (st : Tracker) (now : Int), st.parse_line Line.empty now = some st) ∧
    (∀ st : Tracker,
      (st.reset).player_name = st.player_name ∧
      (st.reset).target_filter = st.target_filter ∧
      (st.reset).exact_match = st.exact_match ∧
      (st.reset).auto_track = st.auto_track ∧
      (st.reset).hits = 0 ∧ (st.reset).misses = 0 ∧ (st.reset).crits = 0 ∧
      (st.reset).target_name = "" ∧ (st.reset).target_saves = none ∧
      (st.reset).target_ac = none ∧ (st.reset).target_dead = false ∧
      (st.reset).kill_time = none ∧ (st.reset).encounter_start = none ∧
      (st.reset).encounter_last = none) := by
  refine ⟨?_, ?_, ?_⟩
  · intro st L now
    exact Option.isSome_iff_exists.mp (parse_line_isSome st L now)
  · intro st now
    exact parse_line_empty st now
  · intro st
    exact ⟨rfl, rfl, rfl, rfl, rfl, rfl, rfl, rfl, rfl, rfl, rfl, rfl, rfl, rfl⟩
